import Mathlib

/-!
Verification of the flameglow stat-collection engine (scripts/os_stats.py and
the tick loop of scripts/flameglow.py).

Strings are modelled as lists of characters; Python's unbounded integers as
Int.  File reads and subprocess invocations are modelled as inputs of type
Except Unit Str: an error value stands for an OSError/CalledProcessError
raised while opening or reading the source.  Python's dynamic typing of the
avg_cpu_usage / meminfo scratch variables (int 0 before assignment, str
afterwards) is modelled by the StrInt sum type.
-/

set_option synthInstance.maxSize 2000

abbrev Str := List Char

/-- Python str value or int value, for dynamically typed slots. -/
inductive StrInt
  | int (n : Int)
  | str (s : Str)
  deriving DecidableEq, Repr

namespace Flameglow

/-- Split at every character satisfying p, keeping empty chunks
(the building block for Python split semantics). -/
def splitPred (p : Char → Bool) : Str → List Str
  | [] => [[]]
  | c :: cs =>
    match splitPred p cs with
    | [] => [[]]
    | r :: rs => if p c then [] :: r :: rs else (c :: r) :: rs

/-- Python s.split(sep) for a single-character separator. -/
def splitSep (sep : Char) (s : Str) : List Str :=
  splitPred (fun c => c == sep) s

/-- Python s.split() : split on whitespace runs, dropping empty fields. -/
def wsSplit (s : Str) : List Str :=
  (splitPred Char.isWhitespace s).filter (fun w => !w.isEmpty)

/-- Python s.lstrip(). -/
def pyLstrip (s : Str) : Str := s.dropWhile Char.isWhitespace

/-- Python s.strip(). -/
def pyStrip (s : Str) : Str :=
  ((s.dropWhile Char.isWhitespace).reverse.dropWhile Char.isWhitespace).reverse

/-- Python s.splitlines() for newline-terminated text: split on the newline
character, with no empty trailing chunk for a trailing newline. -/
def pySplitlines (s : Str) : List Str :=
  let r := splitSep '\n' s
  match r.getLast? with
  | some [] => r.dropLast
  | _ => r

/-- Value of a nonempty all-digit string. -/
def digitsVal (ds : Str) : Option Nat :=
  if ds.isEmpty then none
  else if ds.all Char.isDigit then
    some (ds.foldl (fun a c => a * 10 + (c.toNat - 48)) 0)
  else none

/-- Python int(s) on a string: optional surrounding whitespace, optional
sign, then decimal digits. -/
def pyInt (s : Str) : Option Int :=
  match pyStrip s with
  | '+' :: r => (digitsVal r).map (fun n => (n : Int))
  | '-' :: r => (digitsVal r).map (fun n => -(n : Int))
  | r => (digitsVal r).map (fun n => (n : Int))

/-- Value of a possibly-empty digit string (empty means 0). -/
def intPartVal (ds : Str) : Nat :=
  ds.foldl (fun a c => a * 10 + (c.toNat - 48)) 0

/-- Python int(float(s)) on decimal notation: truncation toward zero.
(Exponent and inf/nan float forms are not modelled; the pseudo-files read
here use plain decimal notation.) -/
def pyFloatTrunc (s : Str) : Option Int :=
  let t := pyStrip s
  let su : Int × Str :=
    match t with
    | '+' :: r => (1, r)
    | '-' :: r => (-1, r)
    | r => (1, r)
  match splitSep '.' su.2 with
  | [ip] => (digitsVal ip).map (fun n => su.1 * (n : Int))
  | [ip, fp] =>
    if ip.all Char.isDigit && fp.all Char.isDigit && !(ip.isEmpty && fp.isEmpty) then
      some (su.1 * (intPartVal ip : Int))
    else none
  | _ => none

/-- Python int(float(s) * 1000) on decimal notation, computed exactly
(millidegree conversion of vcgencmd output). -/
def pyFloatMil (s : Str) : Option Int :=
  let t := pyStrip s
  let su : Int × Str :=
    match t with
    | '+' :: r => (1, r)
    | '-' :: r => (-1, r)
    | r => (1, r)
  match splitSep '.' su.2 with
  | [ip] => (digitsVal ip).map (fun n => su.1 * (n : Int) * 1000)
  | [ip, fp] =>
    if ip.all Char.isDigit && fp.all Char.isDigit && !(ip.isEmpty && fp.isEmpty) then
      some (su.1 * ((intPartVal ip : Int) * 1000 +
        (intPartVal (fp.take 3) : Int) * (10 ^ (3 - min 3 fp.length) : Nat)))
    else none
  | _ => none

/-- Split before the first occurrence of a (nonempty) separator string. -/
def breakAt (sep : Str) : Str → Option (Str × Str)
  | [] => none
  | c :: cs =>
    if sep.isPrefixOf (c :: cs) then some ([], (c :: cs).drop sep.length)
    else (breakAt sep cs).map (fun p => (c :: p.1, p.2))

theorem breakAt_length {sep s a b} (hsep : sep ≠ []) :
    breakAt sep s = some (a, b) → b.length < s.length := by
  induction s generalizing a b with
  | nil => intro h; simp [breakAt] at h
  | cons c cs ih =>
    intro h
    by_cases hp : sep.isPrefixOf (c :: cs)
    · simp [breakAt, hp] at h
      obtain ⟨_, hb⟩ := h
      subst hb
      have : 0 < sep.length := List.length_pos.mpr hsep
      simp [List.length_drop]
      omega
    · cases hrec : breakAt sep cs with
      | none => simp [breakAt, hp, hrec] at h
      | some p =>
        simp [breakAt, hp, hrec] at h
        have hlt := ih (a := p.1) (b := p.2) (by rw [hrec])
        have hb : p.2 = b := h.2
        simp [← hb]
        omega

/-- Worker for splitSeq: the fuel only bounds the recursion depth, and
splitting consumes at least one character per round, so fuel
s.length + 1 is never exhausted. -/
def splitSeqAux (sep : Str) : Nat → Str → List Str
  | 0, s => [s]
  | fuel + 1, s =>
    match breakAt sep s with
    | none => [s]
    | some (a, b) => a :: splitSeqAux sep fuel b

/-- Python s.split(sep) for a multi-character separator. -/
def splitSeq (sep : Str) (s : Str) : List Str :=
  if sep = [] then [s] else splitSeqAux sep (s.length + 1) s

/-- Python truthiness test (value != 0) on a dynamically typed slot: a
string compares unequal to the int 0, an int by value. -/
def strIntNeZero : StrInt → Bool
  | .int n => n != 0
  | .str _ => true

/-- Python int(x) on a dynamically typed slot. -/
def pyIntSI : StrInt → Option Int
  | .int n => some n
  | .str s => pyInt s

/-- Python substring containment (the in operator on strings). -/
def strInStr (sub : Str) : Str → Bool
  | [] => sub.isEmpty
  | c :: cs => sub.isPrefixOf (c :: cs) || strInStr sub cs

/-- IO_SECTOR_SIZE constant of os_stats.py. -/
def IO_SECTOR_SIZE : Int := 512

/-- Configuration and locator results held by the os_stats instance:
host/GPU type strings, configured interface and I/O device, and the
sensor identifiers resolved once at startup (None when undetected). -/
structure Cfg where
  host_type : Str
  gpu_type : Str
  net_intf : Option Str
  io_device : Option Str
  cpu_thermal_zone_id : Option Nat
  nvme_drive_id : Option Nat
  nvme_hwmon_id : Option Str
  gpu_card_id : Option Nat
  gpu_hwmon_id : Option Str
  deriving DecidableEq, Repr

/-- The network fields of the os_stats instance: previous-tick raw byte
counters (None before the first tick), the most recently read raw
counters, and the reported per-tick rates. -/
structure NetFields where
  bytes_rec_prev : Option Int
  bytes_trans_prev : Option Int
  bytes_rec : Int
  bytes_trans : Int
  rec_rate : Int
  trans_rate : Int
  deriving DecidableEq, Repr

/-- The I/O fields of the os_stats instance: previous-tick raw sector
counters, most recently read raw sector counters, and the reported
per-tick byte rates. -/
structure IoFields where
  sectors_read_prev : Option Int
  sectors_written_prev : Option Int
  sectors_read : Int
  sectors_written : Int
  bytes_read : Int
  bytes_written : Int
  deriving DecidableEq, Repr

/-- The GPU metric fields of the os_stats instance. -/
structure GpuFields where
  usage : Int
  memory_usage : Int
  temp : Int
  deriving DecidableEq, Repr

/-- The mutable state of one os_stats instance (class os_stats). -/
structure os_stats where
  cfg : Cfg
  net : NetFields
  io : IoFields
  avg_cpu_usage : StrInt
  memory_load : Int
  uptime : Int
  gpu : GpuFields
  cpu_package_temp : Int
  nvme_composite_temp : Int
  deriving DecidableEq, Repr

/-- The state built by os_stats.__init__ (detection results passed in;
network interface and I/O device set afterwards by the setters). -/
def osInit (host gpuT : Str) (cz : Option Nat) (nd : Option Nat) (nh : Option Str)
    (gc : Option Nat) (gh : Option Str) : os_stats where
  cfg := { host_type := host, gpu_type := gpuT, net_intf := none, io_device := none,
           cpu_thermal_zone_id := cz, nvme_drive_id := nd, nvme_hwmon_id := nh,
           gpu_card_id := gc, gpu_hwmon_id := gh }
  net := { bytes_rec_prev := none, bytes_trans_prev := none,
           bytes_rec := 0, bytes_trans := 0, rec_rate := 0, trans_rate := 0 }
  io := { sectors_read_prev := none, sectors_written_prev := none,
          sectors_read := 0, sectors_written := 0, bytes_read := 0, bytes_written := 0 }
  avg_cpu_usage := .int 0
  memory_load := 0
  uptime := 0
  gpu := { usage := 0, memory_usage := 0, temp := 0 }
  cpu_package_temp := 0
  nvme_composite_temp := 0

/-- os_stats.set_network_interface. -/
def set_network_interface (s : os_stats) (nm : Str) : os_stats :=
  { s with cfg := { s.cfg with net_intf := some nm } }

instance {α β : Type} [DecidableEq α] [DecidableEq β] : DecidableEq (Except α β) :=
  fun a b =>
    match a, b with
    | .error x, .error y =>
      if h : x = y then .isTrue (by rw [h]) else .isFalse (by intro hc; cases hc; exact h rfl)
    | .ok x, .ok y =>
      if h : x = y then .isTrue (by rw [h]) else .isFalse (by intro hc; cases hc; exact h rfl)
    | .error _, .ok _ => .isFalse (by intro hc; cases hc)
    | .ok _, .error _ => .isFalse (by intro hc; cases hc)

/-- The external readings consumed by one collect_stats call.  Each field
is the outcome of the corresponding file read (or subprocess run for the
last two): an error value models a raised OSError / CalledProcessError. -/
structure TickInput where
  loadavg : Except Unit Str
  meminfo : Except Unit Str
  uptime : Except Unit Str
  net_dev : Except Unit Str
  diskstats : Except Unit Str
  cpu_temp : Except Unit Str
  nvme_temp : Except Unit Str
  gpu_sys_temp : Except Unit Str
  nvidia_out : Except Unit Str
  vcgencmd_out : Except Unit Str
  deriving DecidableEq, Repr

/-- Sequencing of collect_stats sections: an exception carries the
partially mutated instance out of the failed section. -/
def estep (r : Except os_stats os_stats) (f : os_stats → Except os_stats os_stats) :
    Except os_stats os_stats :=
  match r with
  | .error e => .error e
  | .ok s => f s

/-- /proc/loadavg parsing in collect_stats: first whitespace field,
stored as a string. -/
def stepLoadavg (inp : TickInput) (s : os_stats) : Except os_stats os_stats :=
  match inp.loadavg with
  | .error _ => .error s
  | .ok content =>
    match (wsSplit content)[0]? with
    | none => .error s
    | some w => .ok { s with avg_cpu_usage := .str w }

/-- The meminfo scan loop of collect_stats: per line, a label match
updates the corresponding scratch value (raising on a malformed line);
after each line the loop breaks once both scratch values are truthy. -/
def memScan : List Str → StrInt → StrInt → Except Unit (StrInt × StrInt)
  | [], t, a => .ok (t, a)
  | l :: ls, t, a =>
    if ("MemTotal".toList).isPrefixOf l then
      match (splitSep ':' l)[1]? with
      | none => .error ()
      | some v =>
        match (wsSplit (pyStrip v))[0]? with
        | none => .error ()
        | some w =>
          let t2 : StrInt := .str w
          if strIntNeZero t2 && strIntNeZero a then .ok (t2, a) else memScan ls t2 a
    else if ("MemAvailable".toList).isPrefixOf l then
      match (splitSep ':' l)[1]? with
      | none => .error ()
      | some v =>
        match (wsSplit (pyStrip v))[0]? with
        | none => .error ()
        | some w =>
          let a2 : StrInt := .str w
          if strIntNeZero t && strIntNeZero a2 then .ok (t, a2) else memScan ls t a2
    else
      if strIntNeZero t && strIntNeZero a then .ok (t, a) else memScan ls t a

/-- /proc/meminfo parsing in collect_stats: scan the lines starting from
int-0 scratch values, then report int(total) - int(available). -/
def stepMeminfo (inp : TickInput) (s : os_stats) : Except os_stats os_stats :=
  match inp.meminfo with
  | .error _ => .error s
  | .ok content =>
    match memScan (pySplitlines content) (.int 0) (.int 0) with
    | .error _ => .error s
    | .ok (t, a) =>
      match pyIntSI t, pyIntSI a with
      | some x, some y => .ok { s with memory_load := x - y }
      | _, _ => .error s

/-- /proc/uptime parsing in collect_stats: int(float(first field)). -/
def stepUptime (inp : TickInput) (s : os_stats) : Except os_stats os_stats :=
  match inp.uptime with
  | .error _ => .error s
  | .ok content =>
    match (wsSplit content)[0]? with
    | none => .error s
    | some w =>
      match pyFloatTrunc w with
      | none => .error s
      | some v => .ok { s with uptime := v }

/-- The delta block of the network section: zero rates when both previous
counters are None, current-minus-previous otherwise, then the baseline is
overwritten with the current raw values.  A mixed None/non-None pair makes
the subtraction raise (int minus None), after any rate already assigned. -/
def netRates (s : os_stats) : Except os_stats os_stats :=
  match s.net.bytes_rec_prev, s.net.bytes_trans_prev with
  | none, none =>
    .ok { s with net := { s.net with
          rec_rate := 0, trans_rate := 0,
          bytes_rec_prev := some s.net.bytes_rec,
          bytes_trans_prev := some s.net.bytes_trans } }
  | some p, some q =>
    .ok { s with net := { s.net with
          rec_rate := s.net.bytes_rec - p, trans_rate := s.net.bytes_trans - q,
          bytes_rec_prev := some s.net.bytes_rec, bytes_trans_prev := some s.net.bytes_trans } }
  | some p, none => .error { s with net := { s.net with rec_rate := s.net.bytes_rec - p } }
  | none, some _ => .error s

/-- /proc/net/dev parsing in collect_stats: the first line whose
left-stripped text starts with the configured interface name supplies the
raw counters (fields 0 and 8 after the colon); when no line matches, the
previously stored raw counter fields are carried into the delta block
unchanged. -/
def stepNetDev (inp : TickInput) (s : os_stats) : Except os_stats os_stats :=
  match inp.net_dev with
  | .error _ => .error s
  | .ok content =>
    let lines := pySplitlines content
    match s.cfg.net_intf with
    | none => if lines.isEmpty then netRates s else .error s
    | some nm =>
      match lines.find? (fun l => nm.isPrefixOf (pyLstrip l)) with
      | none => netRates s
      | some l =>
        match (splitSep ':' l)[1]? with
        | none => .error s
        | some rest =>
          let fields := wsSplit rest
          match fields[0]? with
          | none => .error s
          | some f0 =>
            match pyInt f0 with
            | none => .error s
            | some r =>
              let s1 := { s with net := { s.net with bytes_rec := r } }
              match fields[8]? with
              | none => .error s1
              | some f8 =>
                match pyInt f8 with
                | none => .error s1
                | some t => netRates { s1 with net := { s1.net with bytes_trans := t } }

/-- The delta block of the disk section: same rule as the network one,
with each sector delta multiplied by IO_SECTOR_SIZE. -/
def ioRates (s : os_stats) : Except os_stats os_stats :=
  match s.io.sectors_read_prev, s.io.sectors_written_prev with
  | none, none =>
    .ok { s with io := { s.io with
          bytes_read := 0, bytes_written := 0,
          sectors_read_prev := some s.io.sectors_read,
          sectors_written_prev := some s.io.sectors_written } }
  | some p, some q =>
    .ok { s with io := { s.io with
          bytes_read := (s.io.sectors_read - p) * IO_SECTOR_SIZE,
          bytes_written := (s.io.sectors_written - q) * IO_SECTOR_SIZE,
          sectors_read_prev := some s.io.sectors_read,
          sectors_written_prev := some s.io.sectors_written } }
  | some p, none =>
    .error { s with io := { s.io with bytes_read := (s.io.sectors_read - p) * IO_SECTOR_SIZE } }
  | none, some _ => .error s

/-- /proc/diskstats parsing in collect_stats: the first line containing
the I/O device name as a substring supplies the raw sector counters
(whole-line fields 5 and 9); when no line matches, the stored raw counter
fields are carried into the delta block unchanged. -/
def stepIoDev (inp : TickInput) (s : os_stats) : Except os_stats os_stats :=
  match inp.diskstats with
  | .error _ => .error s
  | .ok content =>
    let lines := pySplitlines content
    match s.cfg.io_device with
    | none => if lines.isEmpty then ioRates s else .error s
    | some dev =>
      match lines.find? (fun l => strInStr dev l) with
      | none => ioRates s
      | some l =>
        let fields := wsSplit l
        match fields[5]? with
        | none => .error s
        | some f5 =>
          match pyInt f5 with
          | none => .error s
          | some r =>
            let s1 := { s with io := { s.io with sectors_read := r } }
            match fields[9]? with
            | none => .error s1
            | some f9 =>
              match pyInt f9 with
              | none => .error s1
              | some w => ioRates { s1 with io := { s1.io with sectors_written := w } }

/-- Thermal-zone temperature read of collect_stats (skipped when no zone
was resolved; a read or parse failure raises out of the tick). -/
def stepCpuTemp (inp : TickInput) (s : os_stats) : Except os_stats os_stats :=
  match s.cfg.cpu_thermal_zone_id with
  | none => .ok s
  | some _ =>
    match inp.cpu_temp with
    | .error _ => .error s
    | .ok c =>
      match pyInt c with
      | none => .error s
      | some v => .ok { s with cpu_package_temp := v }

/-- NVMe composite temperature read of collect_stats (skipped unless both
identifiers were resolved). -/
def stepNvmeTemp (inp : TickInput) (s : os_stats) : Except os_stats os_stats :=
  match s.cfg.nvme_drive_id, s.cfg.nvme_hwmon_id with
  | some _, some _ =>
    match inp.nvme_temp with
    | .error _ => .error s
    | .ok c =>
      match pyInt c with
      | none => .error s
      | some v => .ok { s with nvme_composite_temp := v }
  | _, _ => .ok s

/-- nvidia-smi single-line output parsing: split on comma-space, take the
first whitespace field of parts 0 and 1 and the whole part 2 as ints, with
the temperature scaled to millidegrees. -/
def parseNvidia (c : Str) : Option (Int × Int × Int) :=
  let parts := splitSeq (", ".toList) c
  match parts[0]? with
  | none => none
  | some p0 =>
    match (wsSplit p0)[0]? with
    | none => none
    | some u0 =>
      match pyInt u0 with
      | none => none
      | some u =>
        match parts[1]? with
        | none => none
        | some p1 =>
          match (wsSplit p1)[0]? with
          | none => none
          | some m0 =>
            match pyInt m0 with
            | none => none
            | some m =>
              match parts[2]? with
              | none => none
              | some p2 =>
                match pyInt p2 with
                | none => none
                | some t => some (u, m, t * 1000)

/-- Outcome of the nvidia-smi invocation plus parse (none on either an
invocation error or unparseable output). -/
def nvidiaRes (inp : TickInput) : Option (Int × Int × Int) :=
  match inp.nvidia_out with
  | .error _ => none
  | .ok c => parseNvidia c

/-- vcgencmd measure_temp parsing: strip, split on the equals sign, drop
the two-character unit suffix, int(float(value) * 1000). -/
def parseVcgencmd (c : Str) : Option Int :=
  match (splitSep '=' (pyStrip c))[1]? with
  | none => none
  | some v => pyFloatMil (v.take (v.length - 2))

/-- Outcome of the vcgencmd invocation plus parse. -/
def vcgencmdRes (inp : TickInput) : Option Int :=
  match inp.vcgencmd_out with
  | .error _ => none
  | .ok c => parseVcgencmd c

/-- GPU telemetry section of collect_stats, dispatched on the configured
GPU type.  The nvidia and raspberrypi branches contain their failures
(zeroing the affected fields); the amd sysfs branch raises on a read or
parse failure like the other sysfs sensors. -/
def stepGpu (inp : TickInput) (s : os_stats) : Except os_stats os_stats :=
  if s.cfg.gpu_type = "nvidia".toList then
    match nvidiaRes inp with
    | some (u, m, t) => .ok { s with gpu := { usage := u, memory_usage := m, temp := t } }
    | none => .ok { s with gpu := { usage := 0, memory_usage := 0, temp := 0 } }
  else if s.cfg.gpu_type = "amd".toList then
    match s.cfg.gpu_card_id, s.cfg.gpu_hwmon_id with
    | some _, some _ =>
      match inp.gpu_sys_temp with
      | .error _ => .error s
      | .ok c =>
        match pyInt c with
        | none => .error s
        | some v => .ok { s with gpu := { s.gpu with temp := v } }
    | _, _ => .ok s
  else if s.cfg.gpu_type = "raspberrypi".toList then
    match vcgencmdRes inp with
    | some v => .ok { s with gpu := { s.gpu with temp := v } }
    | none => .ok { s with gpu := { s.gpu with temp := 0 } }
  else .ok s

/-- os_stats.collect_stats: the eight sections in source order; any raise
aborts the remainder of the tick and carries the partially mutated
instance to the caller. -/
def collect_stats (inp : TickInput) (s : os_stats) : Except os_stats os_stats :=
  estep (estep (estep (estep (estep (estep (estep
    (stepLoadavg inp s)
    (stepMeminfo inp)) (stepUptime inp)) (stepNetDev inp)) (stepIoDev inp))
    (stepCpuTemp inp)) (stepNvmeTemp inp)) (stepGpu inp)

/-- os_stats.clear_stats: zero the current raw counter copies and every
reported metric; the previous-counter baselines and the configuration are
not touched. -/
def clear_stats (s : os_stats) : os_stats :=
  { s with
    net := { s.net with bytes_rec := 0, bytes_trans := 0, rec_rate := 0, trans_rate := 0 }
    io := { s.io with
            sectors_read := 0, sectors_written := 0,
            bytes_read := 0, bytes_written := 0 }
    avg_cpu_usage := .int 0
    memory_load := 0
    uptime := 0
    gpu := { usage := 0, memory_usage := 0, temp := 0 }
    cpu_package_temp := 0
    nvme_composite_temp := 0 }

/-- One iteration of the flameglow main loop: collect, and on a raised
exception clear the stats before the next tick. -/
def mainTick (inp : TickInput) (s : os_stats) : os_stats :=
  match collect_stats inp s with
  | .ok t => t
  | .error e => clear_stats e

/-- State reached after running the main loop over a list of tick
inputs. -/
def runTo (inps : List TickInput) (s : os_stats) : os_stats :=
  inps.foldl (fun acc i => mainTick i acc) s

/-- The raw network counters a tick would extract from the net-device
text for interface nm: the first line whose left-stripped text starts
with nm, fields 0 and 8 after the colon, both parsed as ints.  none when
no line matches or the matched line is malformed. -/
def parseNetVals (nm : Str) (c : Str) : Option (Int × Int) :=
  match (pySplitlines c).find? (fun l => nm.isPrefixOf (pyLstrip l)) with
  | none => none
  | some l =>
    match (splitSep ':' l)[1]? with
    | none => none
    | some rest =>
      match (wsSplit rest)[0]? with
      | none => none
      | some f0 =>
        match pyInt f0 with
        | none => none
        | some r =>
          match (wsSplit rest)[8]? with
          | none => none
          | some f8 =>
            match pyInt f8 with
            | none => none
            | some t => some (r, t)

/-- The raw sector counters a tick would extract from the diskstats text
for device dev: the first line containing dev, whole-line fields 5 and 9
parsed as ints. -/
def parseIoVals (dev : Str) (c : Str) : Option (Int × Int) :=
  match (pySplitlines c).find? (fun l => strInStr dev l) with
  | none => none
  | some l =>
    match (wsSplit l)[5]? with
    | none => none
    | some f5 =>
      match pyInt f5 with
      | none => none
      | some r =>
        match (wsSplit l)[9]? with
        | none => none
        | some f9 =>
          match pyInt f9 with
          | none => none
          | some w => some (r, w)

/-- A valid network reading carried by a tick input: the net-device file
opened and the interface line parsed. -/
def netReading (nm : Str) (inp : TickInput) : Option (Int × Int) :=
  match inp.net_dev with
  | .error _ => none
  | .ok c => parseNetVals nm c

/-- A valid disk reading carried by a tick input. -/
def ioReading (dev : Str) (inp : TickInput) : Option (Int × Int) :=
  match inp.diskstats with
  | .error _ => none
  | .ok c => parseIoVals dev c

/-!
The Source Locator (detect_cpu_thermal_zone_path, detect_nvme_path,
detect_gpu_path).  The sysfs tree is abstracted by functions: an existence
probe per index (os.path.exists returns a plain Bool, swallowing errors),
a directory scan per index (Except: os.scandir can raise), and file reads
(Except: open/read can raise).  The while loops are driven by fuel; a none
result means the fuel ran out, i.e. the loop ran at least that many
iterations.  A .error result is an exception escaping the detect call:
os_stats.__init__ installs no handler around these calls, so it propagates
out of the constructor.
-/

/-- SYS_CPU_THERMAL_ZONE_TYPE_* selection in detect_cpu_thermal_zone_path. -/
def expectedZoneType (host : Str) : Str :=
  if host ≠ "raspberrypi".toList then "x86_pkg_temp".toList else "cpu-thermal".toList

/-- detect_cpu_thermal_zone_path: walk thermal_zone indices from n while
they exist; read each type file (a raised read error propagates); return
the first index whose type matches the host-dependent label. -/
def detect_cpu_thermal_zone_path (zoneEx : Nat → Bool) (zoneTy : Nat → Except Unit Str)
    (host : Str) : Nat → Nat → Option (Except Unit (Option Nat))
  | 0, _ => none
  | fuel + 1, n =>
    if zoneEx n then
      match zoneTy n with
      | .error e => some (.error e)
      | .ok t =>
        if pyStrip t = expectedZoneType host then some (.ok (some n))
        else detect_cpu_thermal_zone_path zoneEx zoneTy host fuel (n + 1)
    else some (.ok none)

/-- detect_nvme_path inner scan: first hwmon-named directory entry whose
temp1_input file exists (an existence check that cannot raise). -/
def nvmeScanEntries (tempEx : Nat → Str → Bool) (n : Nat) :
    List (Str × Bool) → Option (Nat × Str)
  | [] => none
  | (nm, d) :: rest =>
    if ("hwmon".toList).isPrefixOf nm && d then
      if tempEx n nm then some (n, nm.drop 5) else nvmeScanEntries tempEx n rest
    else nvmeScanEntries tempEx n rest

/-- detect_nvme_path: walk nvme indices while they exist; scan each
device directory (a raised scandir error propagates); return the first
device/hwmon pair exposing a composite-temperature file. -/
def detect_nvme_path (nvmeEx : Nat → Bool) (scanHw : Nat → Except Unit (List (Str × Bool)))
    (tempEx : Nat → Str → Bool) : Nat → Nat → Option (Except Unit (Option (Nat × Str)))
  | 0, _ => none
  | fuel + 1, n =>
    if nvmeEx n then
      match scanHw n with
      | .error e => some (.error e)
      | .ok entries =>
        match nvmeScanEntries tempEx n entries with
        | some r => some (.ok (some r))
        | none => detect_nvme_path nvmeEx scanHw tempEx fuel (n + 1)
    else some (.ok none)

/-- detect_gpu_path inner scan: for each hwmon-named directory entry,
read the monitor name file (a raised read error propagates) and accept
when the stripped name occurs in the SYS_GPU_CARD_TYPES string (a
parenthesised string, so the in operator is a substring test against
the text amdgpu). -/
def gpuScanEntries (readNm : Nat → Str → Except Unit Str) (n : Nat) :
    List (Str × Bool) → Except Unit (Option (Nat × Str))
  | [] => .ok none
  | (nm, d) :: rest =>
    if ("hwmon".toList).isPrefixOf nm && d then
      match readNm n (nm.drop 5) with
      | .error e => .error e
      | .ok cardName =>
        if strInStr (pyStrip cardName) ("amdgpu".toList) then .ok (some (n, nm.drop 5))
        else gpuScanEntries readNm n rest
    else gpuScanEntries readNm n rest

/-- detect_gpu_path: while the card index exists, scan its hwmon
directory for a matching monitor.  The loop body never increments the
card index (unlike the other two detectors), so a non-matching existing
card is rescanned forever. -/
def detect_gpu_path (cardEx : Nat → Bool) (scanHw : Nat → Except Unit (List (Str × Bool)))
    (readNm : Nat → Str → Except Unit Str) : Nat → Nat → Option (Except Unit (Option (Nat × Str)))
  | 0, _ => none
  | fuel + 1, n =>
    if cardEx n then
      match scanHw n with
      | .error e => some (.error e)
      | .ok entries =>
        match gpuScanEntries readNm n entries with
        | .error e => some (.error e)
        | .ok (some r) => some (.ok (some r))
        | .ok none => detect_gpu_path cardEx scanHw readNm fuel n
    else some (.ok none)

/-- The detection sequence of os_stats.__init__: CPU thermal zone, NVMe,
then (only for the amd GPU type) the DRM card scan; a raised error in any
detector escapes the constructor and aborts startup. -/
def initSensors (host gpuT : Str) (zoneEx : Nat → Bool) (zoneTy : Nat → Except Unit Str)
    (nvmeEx : Nat → Bool) (nvmeScanHw : Nat → Except Unit (List (Str × Bool)))
    (tempEx : Nat → Str → Bool) (cardEx : Nat → Bool)
    (gpuScanHw : Nat → Except Unit (List (Str × Bool)))
    (readNm : Nat → Str → Except Unit Str) (fuel : Nat) :
    Option (Except Unit ((Option Nat × Option (Nat × Str)) × Option (Nat × Str))) :=
  match detect_cpu_thermal_zone_path zoneEx zoneTy host fuel 0 with
  | none => none
  | some (.error e) => some (.error e)
  | some (.ok cz) =>
    match detect_nvme_path nvmeEx nvmeScanHw tempEx fuel 0 with
    | none => none
    | some (.error e) => some (.error e)
    | some (.ok nv) =>
      if gpuT = "amd".toList then
        match detect_gpu_path cardEx gpuScanHw readNm fuel 0 with
        | none => none
        | some (.error e) => some (.error e)
        | some (.ok g) => some (.ok ((cz, nv), g))
      else some (.ok ((cz, nv), none))

/-! Basic lemmas about the sequencing combinator and section outcomes. -/

theorem estep_ok_iff {r : Except os_stats os_stats} {f t} :
    estep r f = .ok t ↔ ∃ m, r = .ok m ∧ f m = .ok t := by
  cases r <;> simp [estep]

theorem estep_error_iff {r : Except os_stats os_stats} {f e} :
    estep r f = .error e ↔ r = .error e ∨ ∃ m, r = .ok m ∧ f m = .error e := by
  cases r <;> simp [estep]

theorem isOk_iff_ok {α β : Type} {r : Except α β} :
    r.isOk = true ↔ ∃ u, r = .ok u := by
  cases r <;> simp [Except.isOk, Except.toBool]

/-- All sections of collect_stats at once: success of the whole call is
success of every section in sequence. -/
theorem collect_ok_decomp {inp s u} (h : collect_stats inp s = .ok u) :
    ∃ s1 s2 s3 s4 s5 s6 s7,
      stepLoadavg inp s = .ok s1 ∧ stepMeminfo inp s1 = .ok s2 ∧
      stepUptime inp s2 = .ok s3 ∧ stepNetDev inp s3 = .ok s4 ∧
      stepIoDev inp s4 = .ok s5 ∧ stepCpuTemp inp s5 = .ok s6 ∧
      stepNvmeTemp inp s6 = .ok s7 ∧ stepGpu inp s7 = .ok u := by
  unfold collect_stats at h
  rw [estep_ok_iff] at h
  obtain ⟨s7, h, hgpu⟩ := h
  rw [estep_ok_iff] at h
  obtain ⟨s6, h, hnv⟩ := h
  rw [estep_ok_iff] at h
  obtain ⟨s5, h, hcp⟩ := h
  rw [estep_ok_iff] at h
  obtain ⟨s4, h, hio⟩ := h
  rw [estep_ok_iff] at h
  obtain ⟨s3, h, hnet⟩ := h
  rw [estep_ok_iff] at h
  obtain ⟨s2, h, hup⟩ := h
  rw [estep_ok_iff] at h
  obtain ⟨s1, h, hmem⟩ := h
  exact ⟨s1, s2, s3, s4, s5, s6, s7, h, hmem, hup, hnet, hio, hcp, hnv, hgpu⟩

/-- Failure of the whole call pinpoints the first failing section, with
every earlier section succeeding. -/
theorem collect_error_decomp {inp s e} (h : collect_stats inp s = .error e) :
    stepLoadavg inp s = .error e ∨
    (∃ s1, stepLoadavg inp s = .ok s1 ∧ stepMeminfo inp s1 = .error e) ∨
    (∃ s1 s2, stepLoadavg inp s = .ok s1 ∧ stepMeminfo inp s1 = .ok s2 ∧
      stepUptime inp s2 = .error e) ∨
    (∃ s1 s2 s3, stepLoadavg inp s = .ok s1 ∧ stepMeminfo inp s1 = .ok s2 ∧
      stepUptime inp s2 = .ok s3 ∧ stepNetDev inp s3 = .error e) ∨
    (∃ s1 s2 s3 s4, stepLoadavg inp s = .ok s1 ∧ stepMeminfo inp s1 = .ok s2 ∧
      stepUptime inp s2 = .ok s3 ∧ stepNetDev inp s3 = .ok s4 ∧
      stepIoDev inp s4 = .error e) ∨
    (∃ s1 s2 s3 s4 s5, stepLoadavg inp s = .ok s1 ∧ stepMeminfo inp s1 = .ok s2 ∧
      stepUptime inp s2 = .ok s3 ∧ stepNetDev inp s3 = .ok s4 ∧
      stepIoDev inp s4 = .ok s5 ∧ stepCpuTemp inp s5 = .error e) ∨
    (∃ s1 s2 s3 s4 s5 s6, stepLoadavg inp s = .ok s1 ∧ stepMeminfo inp s1 = .ok s2 ∧
      stepUptime inp s2 = .ok s3 ∧ stepNetDev inp s3 = .ok s4 ∧
      stepIoDev inp s4 = .ok s5 ∧ stepCpuTemp inp s5 = .ok s6 ∧
      stepNvmeTemp inp s6 = .error e) ∨
    (∃ s1 s2 s3 s4 s5 s6 s7, stepLoadavg inp s = .ok s1 ∧ stepMeminfo inp s1 = .ok s2 ∧
      stepUptime inp s2 = .ok s3 ∧ stepNetDev inp s3 = .ok s4 ∧
      stepIoDev inp s4 = .ok s5 ∧ stepCpuTemp inp s5 = .ok s6 ∧
      stepNvmeTemp inp s6 = .ok s7 ∧ stepGpu inp s7 = .error e) := by
  unfold collect_stats at h
  rw [estep_error_iff] at h
  rcases h with h | ⟨s7, h, hgpu⟩
  · rw [estep_error_iff] at h
    rcases h with h | ⟨s6, h, hnv⟩
    · rw [estep_error_iff] at h
      rcases h with h | ⟨s5, h, hcp⟩
      · rw [estep_error_iff] at h
        rcases h with h | ⟨s4, h, hio⟩
        · rw [estep_error_iff] at h
          rcases h with h | ⟨s3, h, hnet⟩
          · rw [estep_error_iff] at h
            rcases h with h | ⟨s2, h, hup⟩
            · rw [estep_error_iff] at h
              rcases h with h | ⟨s1, h, hmem⟩
              · exact Or.inl h
              · exact Or.inr (Or.inl ⟨s1, h, hmem⟩)
            · rw [estep_ok_iff] at h
              obtain ⟨s1, h, hmem⟩ := h
              exact Or.inr (Or.inr (Or.inl ⟨s1, s2, h, hmem, hup⟩))
          · rw [estep_ok_iff] at h
            obtain ⟨s2, h, hup⟩ := h
            rw [estep_ok_iff] at h
            obtain ⟨s1, h, hmem⟩ := h
            exact Or.inr (Or.inr (Or.inr (Or.inl ⟨s1, s2, s3, h, hmem, hup, hnet⟩)))
        · rw [estep_ok_iff] at h
          obtain ⟨s3, h, hnet⟩ := h
          rw [estep_ok_iff] at h
          obtain ⟨s2, h, hup⟩ := h
          rw [estep_ok_iff] at h
          obtain ⟨s1, h, hmem⟩ := h
          exact Or.inr (Or.inr (Or.inr (Or.inr (Or.inl
            ⟨s1, s2, s3, s4, h, hmem, hup, hnet, hio⟩))))
      · rw [estep_ok_iff] at h
        obtain ⟨s4, h, hio⟩ := h
        rw [estep_ok_iff] at h
        obtain ⟨s3, h, hnet⟩ := h
        rw [estep_ok_iff] at h
        obtain ⟨s2, h, hup⟩ := h
        rw [estep_ok_iff] at h
        obtain ⟨s1, h, hmem⟩ := h
        exact Or.inr (Or.inr (Or.inr (Or.inr (Or.inr (Or.inl
          ⟨s1, s2, s3, s4, s5, h, hmem, hup, hnet, hio, hcp⟩)))))
    · rw [estep_ok_iff] at h
      obtain ⟨s5, h, hcp⟩ := h
      rw [estep_ok_iff] at h
      obtain ⟨s4, h, hio⟩ := h
      rw [estep_ok_iff] at h
      obtain ⟨s3, h, hnet⟩ := h
      rw [estep_ok_iff] at h
      obtain ⟨s2, h, hup⟩ := h
      rw [estep_ok_iff] at h
      obtain ⟨s1, h, hmem⟩ := h
      exact Or.inr (Or.inr (Or.inr (Or.inr (Or.inr (Or.inr (Or.inl
        ⟨s1, s2, s3, s4, s5, s6, h, hmem, hup, hnet, hio, hcp, hnv⟩))))))
  · rw [estep_ok_iff] at h
    obtain ⟨s6, h, hnv⟩ := h
    rw [estep_ok_iff] at h
    obtain ⟨s5, h, hcp⟩ := h
    rw [estep_ok_iff] at h
    obtain ⟨s4, h, hio⟩ := h
    rw [estep_ok_iff] at h
    obtain ⟨s3, h, hnet⟩ := h
    rw [estep_ok_iff] at h
    obtain ⟨s2, h, hup⟩ := h
    rw [estep_ok_iff] at h
    obtain ⟨s1, h, hmem⟩ := h
    exact Or.inr (Or.inr (Or.inr (Or.inr (Or.inr (Or.inr (Or.inr
      ⟨s1, s2, s3, s4, s5, s6, s7, h, hmem, hup, hnet, hio, hcp, hnv, hgpu⟩))))))

/-! Frame lemmas: each section writes only its own metric fields, and an
exception leaves everything else (in particular the rate baselines and
the configuration) as it was. -/

theorem stepLoadavg_frames {inp s} :
    (∀ t, stepLoadavg inp s = .ok t →
      t.cfg = s.cfg ∧ t.net = s.net ∧ t.io = s.io ∧ t.memory_load = s.memory_load ∧
      t.uptime = s.uptime ∧ t.gpu = s.gpu ∧ t.cpu_package_temp = s.cpu_package_temp ∧
      t.nvme_composite_temp = s.nvme_composite_temp) ∧
    (∀ e, stepLoadavg inp s = .error e → e = s) := by
  constructor
  · intro t h
    unfold stepLoadavg at h
    repeat' first
      | split at h
      | dsimp only at h
    all_goals first
      | exact Except.noConfusion h
      | (injection h with h; subst h; simp)
  · intro e h
    unfold stepLoadavg at h
    repeat' first
      | split at h
      | dsimp only at h
    all_goals first
      | exact Except.noConfusion h
      | (injection h with h; subst h; simp)

theorem stepMeminfo_frames {inp s} :
    (∀ t, stepMeminfo inp s = .ok t →
      t.cfg = s.cfg ∧ t.net = s.net ∧ t.io = s.io ∧ t.avg_cpu_usage = s.avg_cpu_usage ∧
      t.uptime = s.uptime ∧ t.gpu = s.gpu ∧ t.cpu_package_temp = s.cpu_package_temp ∧
      t.nvme_composite_temp = s.nvme_composite_temp) ∧
    (∀ e, stepMeminfo inp s = .error e → e = s) := by
  constructor
  · intro t h
    unfold stepMeminfo at h
    repeat' first
      | split at h
      | dsimp only at h
    all_goals first
      | exact Except.noConfusion h
      | (injection h with h; subst h; simp)
  · intro e h
    unfold stepMeminfo at h
    repeat' first
      | split at h
      | dsimp only at h
    all_goals first
      | exact Except.noConfusion h
      | (injection h with h; subst h; simp)

theorem stepUptime_frames {inp s} :
    (∀ t, stepUptime inp s = .ok t →
      t.cfg = s.cfg ∧ t.net = s.net ∧ t.io = s.io ∧ t.avg_cpu_usage = s.avg_cpu_usage ∧
      t.memory_load = s.memory_load ∧ t.gpu = s.gpu ∧ t.cpu_package_temp = s.cpu_package_temp ∧
      t.nvme_composite_temp = s.nvme_composite_temp) ∧
    (∀ e, stepUptime inp s = .error e → e = s) := by
  constructor
  · intro t h
    unfold stepUptime at h
    repeat' first
      | split at h
      | dsimp only at h
    all_goals first
      | exact Except.noConfusion h
      | (injection h with h; subst h; simp)
  · intro e h
    unfold stepUptime at h
    repeat' first
      | split at h
      | dsimp only at h
    all_goals first
      | exact Except.noConfusion h
      | (injection h with h; subst h; simp)

theorem stepNetDev_frames {inp s} :
    (∀ t, stepNetDev inp s = .ok t →
      t.cfg = s.cfg ∧ t.io = s.io ∧ t.avg_cpu_usage = s.avg_cpu_usage ∧
      t.memory_load = s.memory_load ∧ t.uptime = s.uptime ∧ t.gpu = s.gpu ∧
      t.cpu_package_temp = s.cpu_package_temp ∧ t.nvme_composite_temp = s.nvme_composite_temp) ∧
    (∀ e, stepNetDev inp s = .error e →
      e.cfg = s.cfg ∧ e.net.bytes_rec_prev = s.net.bytes_rec_prev ∧
      e.net.bytes_trans_prev = s.net.bytes_trans_prev ∧ e.io = s.io ∧
      e.avg_cpu_usage = s.avg_cpu_usage ∧ e.memory_load = s.memory_load ∧
      e.uptime = s.uptime ∧ e.gpu = s.gpu ∧ e.cpu_package_temp = s.cpu_package_temp ∧
      e.nvme_composite_temp = s.nvme_composite_temp) := by
  constructor
  · intro t h
    unfold stepNetDev netRates at h
    repeat' first
      | split at h
      | dsimp only at h
    all_goals first
      | exact Except.noConfusion h
      | (injection h with h; subst h; simp)
  · intro e h
    unfold stepNetDev netRates at h
    repeat' first
      | split at h
      | dsimp only at h
    all_goals first
      | exact Except.noConfusion h
      | (injection h with h; subst h; simp)

theorem stepIoDev_frames {inp s} :
    (∀ t, stepIoDev inp s = .ok t →
      t.cfg = s.cfg ∧ t.net = s.net ∧ t.avg_cpu_usage = s.avg_cpu_usage ∧
      t.memory_load = s.memory_load ∧ t.uptime = s.uptime ∧ t.gpu = s.gpu ∧
      t.cpu_package_temp = s.cpu_package_temp ∧ t.nvme_composite_temp = s.nvme_composite_temp) ∧
    (∀ e, stepIoDev inp s = .error e →
      e.cfg = s.cfg ∧ e.net = s.net ∧ e.io.sectors_read_prev = s.io.sectors_read_prev ∧
      e.io.sectors_written_prev = s.io.sectors_written_prev ∧
      e.avg_cpu_usage = s.avg_cpu_usage ∧ e.memory_load = s.memory_load ∧
      e.uptime = s.uptime ∧ e.gpu = s.gpu ∧ e.cpu_package_temp = s.cpu_package_temp ∧
      e.nvme_composite_temp = s.nvme_composite_temp) := by
  constructor
  · intro t h
    unfold stepIoDev ioRates at h
    repeat' first
      | split at h
      | dsimp only at h
    all_goals first
      | exact Except.noConfusion h
      | (injection h with h; subst h; simp)
  · intro e h
    unfold stepIoDev ioRates at h
    repeat' first
      | split at h
      | dsimp only at h
    all_goals first
      | exact Except.noConfusion h
      | (injection h with h; subst h; simp)

theorem stepCpuTemp_frames {inp s} :
    (∀ t, stepCpuTemp inp s = .ok t →
      t.cfg = s.cfg ∧ t.net = s.net ∧ t.io = s.io ∧ t.avg_cpu_usage = s.avg_cpu_usage ∧
      t.memory_load = s.memory_load ∧ t.uptime = s.uptime ∧ t.gpu = s.gpu ∧
      t.nvme_composite_temp = s.nvme_composite_temp) ∧
    (∀ e, stepCpuTemp inp s = .error e → e = s) := by
  constructor
  · intro t h
    unfold stepCpuTemp at h
    repeat' first
      | split at h
      | dsimp only at h
    all_goals first
      | exact Except.noConfusion h
      | (injection h with h; subst h; simp)
  · intro e h
    unfold stepCpuTemp at h
    repeat' first
      | split at h
      | dsimp only at h
    all_goals first
      | exact Except.noConfusion h
      | (injection h with h; subst h; simp)

theorem stepNvmeTemp_frames {inp s} :
    (∀ t, stepNvmeTemp inp s = .ok t →
      t.cfg = s.cfg ∧ t.net = s.net ∧ t.io = s.io ∧ t.avg_cpu_usage = s.avg_cpu_usage ∧
      t.memory_load = s.memory_load ∧ t.uptime = s.uptime ∧ t.gpu = s.gpu ∧
      t.cpu_package_temp = s.cpu_package_temp) ∧
    (∀ e, stepNvmeTemp inp s = .error e → e = s) := by
  constructor
  · intro t h
    unfold stepNvmeTemp at h
    repeat' first
      | split at h
      | dsimp only at h
    all_goals first
      | exact Except.noConfusion h
      | (injection h with h; subst h; simp)
  · intro e h
    unfold stepNvmeTemp at h
    repeat' first
      | split at h
      | dsimp only at h
    all_goals first
      | exact Except.noConfusion h
      | (injection h with h; subst h; simp)

theorem stepGpu_frames {inp s} :
    (∀ t, stepGpu inp s = .ok t →
      t.cfg = s.cfg ∧ t.net = s.net ∧ t.io = s.io ∧ t.avg_cpu_usage = s.avg_cpu_usage ∧
      t.memory_load = s.memory_load ∧ t.uptime = s.uptime ∧
      t.cpu_package_temp = s.cpu_package_temp ∧ t.nvme_composite_temp = s.nvme_composite_temp) ∧
    (∀ e, stepGpu inp s = .error e → e = s) := by
  constructor
  · intro t h
    unfold stepGpu at h
    repeat' first
      | split at h
      | dsimp only at h
    all_goals first
      | exact Except.noConfusion h
      | (injection h with h; subst h; simp)
  · intro e h
    unfold stepGpu at h
    repeat' first
      | split at h
      | dsimp only at h
    all_goals first
      | exact Except.noConfusion h
      | (injection h with h; subst h; simp)

/-! Configuration is never written by any section, by clear_stats, or by
a whole main-loop iteration. -/

theorem collect_cfg {inp s} :
    (∀ u, collect_stats inp s = .ok u → u.cfg = s.cfg) ∧
    (∀ e, collect_stats inp s = .error e → e.cfg = s.cfg) := by
  constructor
  · intro u h
    obtain ⟨s1, s2, s3, s4, s5, s6, s7, h1, h2, h3, h4, h5, h6, h7, h8⟩ :=
      collect_ok_decomp h
    rw [(stepGpu_frames.1 u h8).1, (stepNvmeTemp_frames.1 s7 h7).1,
      (stepCpuTemp_frames.1 s6 h6).1, (stepIoDev_frames.1 s5 h5).1,
      (stepNetDev_frames.1 s4 h4).1, (stepUptime_frames.1 s3 h3).1,
      (stepMeminfo_frames.1 s2 h2).1, (stepLoadavg_frames.1 s1 h1).1]
  · intro e h
    rcases collect_error_decomp h with
      h1 | ⟨s1, h1, h2⟩ | ⟨s1, s2, h1, h2, h3⟩ | ⟨s1, s2, s3, h1, h2, h3, h4⟩ |
      ⟨s1, s2, s3, s4, h1, h2, h3, h4, h5⟩ |
      ⟨s1, s2, s3, s4, s5, h1, h2, h3, h4, h5, h6⟩ |
      ⟨s1, s2, s3, s4, s5, s6, h1, h2, h3, h4, h5, h6, h7⟩ |
      ⟨s1, s2, s3, s4, s5, s6, s7, h1, h2, h3, h4, h5, h6, h7, h8⟩
    · rw [stepLoadavg_frames.2 e h1]
    · rw [stepMeminfo_frames.2 e h2, (stepLoadavg_frames.1 s1 h1).1]
    · rw [stepUptime_frames.2 e h3, (stepMeminfo_frames.1 s2 h2).1,
        (stepLoadavg_frames.1 s1 h1).1]
    · rw [(stepNetDev_frames.2 e h4).1, (stepUptime_frames.1 s3 h3).1,
        (stepMeminfo_frames.1 s2 h2).1, (stepLoadavg_frames.1 s1 h1).1]
    · rw [(stepIoDev_frames.2 e h5).1, (stepNetDev_frames.1 s4 h4).1,
        (stepUptime_frames.1 s3 h3).1, (stepMeminfo_frames.1 s2 h2).1,
        (stepLoadavg_frames.1 s1 h1).1]
    · rw [stepCpuTemp_frames.2 e h6, (stepIoDev_frames.1 s5 h5).1,
        (stepNetDev_frames.1 s4 h4).1, (stepUptime_frames.1 s3 h3).1,
        (stepMeminfo_frames.1 s2 h2).1, (stepLoadavg_frames.1 s1 h1).1]
    · rw [stepNvmeTemp_frames.2 e h7, (stepCpuTemp_frames.1 s6 h6).1,
        (stepIoDev_frames.1 s5 h5).1, (stepNetDev_frames.1 s4 h4).1,
        (stepUptime_frames.1 s3 h3).1, (stepMeminfo_frames.1 s2 h2).1,
        (stepLoadavg_frames.1 s1 h1).1]
    · rw [stepGpu_frames.2 e h8, (stepNvmeTemp_frames.1 s7 h7).1,
        (stepCpuTemp_frames.1 s6 h6).1, (stepIoDev_frames.1 s5 h5).1,
        (stepNetDev_frames.1 s4 h4).1, (stepUptime_frames.1 s3 h3).1,
        (stepMeminfo_frames.1 s2 h2).1, (stepLoadavg_frames.1 s1 h1).1]

theorem clear_stats_cfg {s} : (clear_stats s).cfg = s.cfg := rfl

theorem mainTick_cfg {inp s} : (mainTick inp s).cfg = s.cfg := by
  unfold mainTick
  cases h : collect_stats inp s with
  | ok u => exact collect_cfg.1 u h
  | error e => rw [clear_stats_cfg]; exact collect_cfg.2 e h

theorem runTo_step {i : TickInput} {is : List TickInput} {s} :
    runTo (i :: is) s = runTo is (mainTick i s) := rfl

theorem runTo_cfg {inps : List TickInput} {s} : (runTo inps s).cfg = s.cfg := by
  induction inps generalizing s with
  | nil => rfl
  | cons i is ih => rw [runTo_step, ih, mainTick_cfg]

/-! Characterisations of the two delta blocks. -/

theorem netRates_none {s} (h1 : s.net.bytes_rec_prev = none)
    (h2 : s.net.bytes_trans_prev = none) :
    netRates s = .ok { s with net := { s.net with
      rec_rate := 0, trans_rate := 0,
      bytes_rec_prev := some s.net.bytes_rec,
      bytes_trans_prev := some s.net.bytes_trans } } := by
  unfold netRates
  rw [h1, h2]

theorem netRates_some {s p q} (h1 : s.net.bytes_rec_prev = some p)
    (h2 : s.net.bytes_trans_prev = some q) :
    netRates s = .ok { s with net := { s.net with
      rec_rate := s.net.bytes_rec - p, trans_rate := s.net.bytes_trans - q,
      bytes_rec_prev := some s.net.bytes_rec,
      bytes_trans_prev := some s.net.bytes_trans } } := by
  unfold netRates
  rw [h1, h2]

theorem netRates_ok_prev {s u} (h : netRates s = .ok u) :
    u.net.bytes_rec_prev = some u.net.bytes_rec ∧
    u.net.bytes_trans_prev = some u.net.bytes_trans ∧
    u.net.bytes_rec = s.net.bytes_rec ∧ u.net.bytes_trans = s.net.bytes_trans := by
  unfold netRates at h
  repeat' split at h
  all_goals first
    | exact Except.noConfusion h
    | (injection h with h; subst h; simp)

theorem ioRates_none {s} (h1 : s.io.sectors_read_prev = none)
    (h2 : s.io.sectors_written_prev = none) :
    ioRates s = .ok { s with io := { s.io with
      bytes_read := 0, bytes_written := 0,
      sectors_read_prev := some s.io.sectors_read,
      sectors_written_prev := some s.io.sectors_written } } := by
  unfold ioRates
  rw [h1, h2]

theorem ioRates_some {s p q} (h1 : s.io.sectors_read_prev = some p)
    (h2 : s.io.sectors_written_prev = some q) :
    ioRates s = .ok { s with io := { s.io with
      bytes_read := (s.io.sectors_read - p) * IO_SECTOR_SIZE,
      bytes_written := (s.io.sectors_written - q) * IO_SECTOR_SIZE,
      sectors_read_prev := some s.io.sectors_read,
      sectors_written_prev := some s.io.sectors_written } } := by
  unfold ioRates
  rw [h1, h2]

theorem ioRates_ok_prev {s u} (h : ioRates s = .ok u) :
    u.io.sectors_read_prev = some u.io.sectors_read ∧
    u.io.sectors_written_prev = some u.io.sectors_written ∧
    u.io.sectors_read = s.io.sectors_read ∧ u.io.sectors_written = s.io.sectors_written := by
  unfold ioRates at h
  repeat' split at h
  all_goals first
    | exact Except.noConfusion h
    | (injection h with h; subst h; simp)

/-! Reductions of the counter sections under a located and parseable
line, and under no matching line. -/

theorem stepNetDev_parse {inp s nm c r t}
    (hintf : s.cfg.net_intf = some nm) (hc : inp.net_dev = .ok c)
    (hp : parseNetVals nm c = some (r, t)) :
    stepNetDev inp s = netRates { s with net := { s.net with bytes_rec := r, bytes_trans := t } } := by
  unfold parseNetVals at hp
  unfold stepNetDev
  rw [hc]
  dsimp only
  rw [hintf]
  dsimp only
  cases hf : (pySplitlines c).find? (fun l => nm.isPrefixOf (pyLstrip l)) with
  | none =>
    try rw [hf] at hp
    try dsimp only at hp
    exact Option.noConfusion hp
  | some l =>
    try rw [hf] at hp
    try rw [hf]
    try dsimp only at hp ⊢
    cases h1 : (splitSep ':' l)[1]? with
    | none =>
      try rw [h1] at hp
      try dsimp only at hp
      exact Option.noConfusion hp
    | some rest =>
      try rw [h1] at hp
      try rw [h1]
      try dsimp only at hp ⊢
      cases h2 : (wsSplit rest)[0]? with
      | none =>
      try rw [h2] at hp
      try dsimp only at hp
      exact Option.noConfusion hp
      | some f0 =>
        try rw [h2] at hp
        try rw [h2]
        try dsimp only at hp ⊢
        cases h3 : pyInt f0 with
        | none =>
      try rw [h3] at hp
      try dsimp only at hp
      exact Option.noConfusion hp
        | some rv =>
          try rw [h3] at hp
          try rw [h3]
          try dsimp only at hp ⊢
          cases h4 : (wsSplit rest)[8]? with
          | none =>
      try rw [h4] at hp
      try dsimp only at hp
      exact Option.noConfusion hp
          | some f8 =>
            try rw [h4] at hp
            try rw [h4]
            try dsimp only at hp ⊢
            cases h5 : pyInt f8 with
            | none =>
      try rw [h5] at hp
      try dsimp only at hp
      exact Option.noConfusion hp
            | some tv =>
              try rw [h5] at hp
              try rw [h5]
              try dsimp only at hp ⊢
              injection hp with hp
              rw [show r = rv from (congrArg Prod.fst hp).symm,
                show t = tv from (congrArg Prod.snd hp).symm]

theorem stepNetDev_nomatch {inp s nm c}
    (hintf : s.cfg.net_intf = some nm) (hc : inp.net_dev = .ok c)
    (hf : (pySplitlines c).find? (fun l => nm.isPrefixOf (pyLstrip l)) = none) :
    stepNetDev inp s = netRates s := by
  unfold stepNetDev
  rw [hc]
  dsimp only
  rw [hintf]
  dsimp only
  rw [hf]

theorem stepIoDev_parse {inp s dev c r w}
    (hdev : s.cfg.io_device = some dev) (hc : inp.diskstats = .ok c)
    (hp : parseIoVals dev c = some (r, w)) :
    stepIoDev inp s = ioRates { s with io := { s.io with sectors_read := r, sectors_written := w } } := by
  unfold parseIoVals at hp
  unfold stepIoDev
  rw [hc]
  dsimp only
  rw [hdev]
  dsimp only
  cases hf : (pySplitlines c).find? (fun l => strInStr dev l) with
  | none =>
    try rw [hf] at hp
    try dsimp only at hp
    exact Option.noConfusion hp
  | some l =>
    try rw [hf] at hp
    try rw [hf]
    try dsimp only at hp ⊢
    cases h1 : (wsSplit l)[5]? with
    | none =>
      try rw [h1] at hp
      try dsimp only at hp
      exact Option.noConfusion hp
    | some f5 =>
      try rw [h1] at hp
      try rw [h1]
      try dsimp only at hp ⊢
      cases h2 : pyInt f5 with
      | none =>
      try rw [h2] at hp
      try dsimp only at hp
      exact Option.noConfusion hp
      | some rv =>
        try rw [h2] at hp
        try rw [h2]
        try dsimp only at hp ⊢
        cases h3 : (wsSplit l)[9]? with
        | none =>
      try rw [h3] at hp
      try dsimp only at hp
      exact Option.noConfusion hp
        | some f9 =>
          try rw [h3] at hp
          try rw [h3]
          try dsimp only at hp ⊢
          cases h4 : pyInt f9 with
          | none =>
      try rw [h4] at hp
      try dsimp only at hp
      exact Option.noConfusion hp
          | some wv =>
            try rw [h4] at hp
            try rw [h4]
            try dsimp only at hp ⊢
            injection hp with hp
            rw [show r = rv from (congrArg Prod.fst hp).symm,
              show w = wv from (congrArg Prod.snd hp).symm]

theorem stepIoDev_nomatch {inp s dev c}
    (hdev : s.cfg.io_device = some dev) (hc : inp.diskstats = .ok c)
    (hf : (pySplitlines c).find? (fun l => strInStr dev l) = none) :
    stepIoDev inp s = ioRates s := by
  unfold stepIoDev
  rw [hc]
  dsimp only
  rw [hdev]
  dsimp only
  rw [hf]

/-- What a successful tick does to the network fields, given a valid
network reading: currents become the just-read values, the baseline is
overwritten with them, and the rate is zero on a first sample and the
delta against the previous baseline otherwise. -/
theorem collect_net_char {inp s u nm r t}
    (hintf : s.cfg.net_intf = some nm)
    (hread : netReading nm inp = some (r, t))
    (h : collect_stats inp s = .ok u) :
    u.cfg = s.cfg ∧
    u.net.bytes_rec = r ∧ u.net.bytes_trans = t ∧
    u.net.bytes_rec_prev = some r ∧ u.net.bytes_trans_prev = some t ∧
    (s.net.bytes_rec_prev = none → s.net.bytes_trans_prev = none →
      u.net.rec_rate = 0 ∧ u.net.trans_rate = 0) ∧
    (∀ p q, s.net.bytes_rec_prev = some p → s.net.bytes_trans_prev = some q →
      u.net.rec_rate = r - p ∧ u.net.trans_rate = t - q) := by
  obtain ⟨s1, s2, s3, s4, s5, s6, s7, h1, h2, h3, h4, h5, h6, h7, h8⟩ :=
    collect_ok_decomp h
  have hcfg3 : s3.cfg = s.cfg := by
    rw [(stepUptime_frames.1 _ h3).1, (stepMeminfo_frames.1 _ h2).1,
      (stepLoadavg_frames.1 _ h1).1]
  have hnet3 : s3.net = s.net := by
    rw [(stepUptime_frames.1 _ h3).2.1, (stepMeminfo_frames.1 _ h2).2.1,
      (stepLoadavg_frames.1 _ h1).2.1]
  have hunet : u.net = s4.net := by
    rw [(stepGpu_frames.1 _ h8).2.1, (stepNvmeTemp_frames.1 _ h7).2.1,
      (stepCpuTemp_frames.1 _ h6).2.1, (stepIoDev_frames.1 _ h5).2.1]
  unfold netReading at hread
  cases hnd : inp.net_dev with
  | error e => rw [hnd] at hread; exact Option.noConfusion hread
  | ok c =>
    rw [hnd] at hread
    have hintf3 : s3.cfg.net_intf = some nm := by rw [hcfg3, hintf]
    rw [stepNetDev_parse hintf3 hnd hread] at h4
    refine ⟨collect_cfg.1 u h, ?_⟩
    cases hpv1 : s.net.bytes_rec_prev with
    | none =>
      cases hpv2 : s.net.bytes_trans_prev with
      | none =>
        rw [netRates_none (by simp [hnet3, hpv1]) (by simp [hnet3, hpv2])] at h4
        injection h4 with h4
        refine ⟨?_, ?_, ?_, ?_, ?_, ?_⟩
        · rw [hunet, ← h4]
        · rw [hunet, ← h4]
        · rw [hunet, ← h4]
        · rw [hunet, ← h4]
        · intro _ _
          constructor
          · rw [hunet, ← h4]
          · rw [hunet, ← h4]
        · intro p q hp _
          exact Option.noConfusion hp
      | some q2 =>
        unfold netRates at h4
        simp [hnet3, hpv1, hpv2] at h4
    | some p =>
      cases hpv2 : s.net.bytes_trans_prev with
      | none =>
        unfold netRates at h4
        simp [hnet3, hpv1, hpv2] at h4
      | some q =>
        rw [netRates_some (p := p) (q := q) (by simp [hnet3, hpv1])
          (by simp [hnet3, hpv2])] at h4
        injection h4 with h4
        refine ⟨?_, ?_, ?_, ?_, ?_, ?_⟩
        · rw [hunet, ← h4]
        · rw [hunet, ← h4]
        · rw [hunet, ← h4]
        · rw [hunet, ← h4]
        · intro hp _
          exact Option.noConfusion hp
        · intro p2 q2 hp hq
          injection hp with hp
          injection hq with hq
          subst hp
          subst hq
          constructor
          · rw [hunet, ← h4]
          · rw [hunet, ← h4]

/-- What a successful tick does to the I/O fields, given a valid disk
reading: same first-sample-zero / delta rule as the network section, with
each sector delta scaled by IO_SECTOR_SIZE, and the sector baseline
always overwritten with the just-read values. -/
theorem collect_io_char {inp s u dev r w}
    (hdev : s.cfg.io_device = some dev)
    (hread : ioReading dev inp = some (r, w))
    (h : collect_stats inp s = .ok u) :
    u.cfg = s.cfg ∧
    u.io.sectors_read = r ∧ u.io.sectors_written = w ∧
    u.io.sectors_read_prev = some r ∧ u.io.sectors_written_prev = some w ∧
    (s.io.sectors_read_prev = none → s.io.sectors_written_prev = none →
      u.io.bytes_read = 0 ∧ u.io.bytes_written = 0) ∧
    (∀ p q, s.io.sectors_read_prev = some p → s.io.sectors_written_prev = some q →
      u.io.bytes_read = (r - p) * IO_SECTOR_SIZE ∧
      u.io.bytes_written = (w - q) * IO_SECTOR_SIZE) := by
  obtain ⟨s1, s2, s3, s4, s5, s6, s7, h1, h2, h3, h4, h5, h6, h7, h8⟩ :=
    collect_ok_decomp h
  have hcfg4 : s4.cfg = s.cfg := by
    rw [(stepNetDev_frames.1 _ h4).1, (stepUptime_frames.1 _ h3).1,
      (stepMeminfo_frames.1 _ h2).1, (stepLoadavg_frames.1 _ h1).1]
  have hio4 : s4.io = s.io := by
    rw [(stepNetDev_frames.1 _ h4).2.1, (stepUptime_frames.1 _ h3).2.2.1,
      (stepMeminfo_frames.1 _ h2).2.2.1, (stepLoadavg_frames.1 _ h1).2.2.1]
  have huio : u.io = s5.io := by
    rw [(stepGpu_frames.1 _ h8).2.2.1, (stepNvmeTemp_frames.1 _ h7).2.2.1,
      (stepCpuTemp_frames.1 _ h6).2.2.1]
  unfold ioReading at hread
  cases hnd : inp.diskstats with
  | error e => rw [hnd] at hread; exact Option.noConfusion hread
  | ok c =>
    rw [hnd] at hread
    have hdev4 : s4.cfg.io_device = some dev := by rw [hcfg4, hdev]
    rw [stepIoDev_parse hdev4 hnd hread] at h5
    refine ⟨collect_cfg.1 u h, ?_⟩
    cases hpv1 : s.io.sectors_read_prev with
    | none =>
      cases hpv2 : s.io.sectors_written_prev with
      | none =>
        rw [ioRates_none (by simp [hio4, hpv1]) (by simp [hio4, hpv2])] at h5
        injection h5 with h5
        refine ⟨?_, ?_, ?_, ?_, ?_, ?_⟩
        · rw [huio, ← h5]
        · rw [huio, ← h5]
        · rw [huio, ← h5]
        · rw [huio, ← h5]
        · intro _ _
          constructor
          · rw [huio, ← h5]
          · rw [huio, ← h5]
        · intro p q hp _
          exact Option.noConfusion hp
      | some q2 =>
        unfold ioRates at h5
        simp [hio4, hpv1, hpv2] at h5
    | some p =>
      cases hpv2 : s.io.sectors_written_prev with
      | none =>
        unfold ioRates at h5
        simp [hio4, hpv1, hpv2] at h5
      | some q =>
        rw [ioRates_some (p := p) (q := q) (by simp [hio4, hpv1])
          (by simp [hio4, hpv2])] at h5
        injection h5 with h5
        refine ⟨?_, ?_, ?_, ?_, ?_, ?_⟩
        · rw [huio, ← h5]
        · rw [huio, ← h5]
        · rw [huio, ← h5]
        · rw [huio, ← h5]
        · intro hp _
          exact Option.noConfusion hp
        · intro p2 q2 hp hq
          injection hp with hp
          injection hq with hq
          subst hp
          subst hq
          constructor
          · rw [huio, ← h5]
          · rw [huio, ← h5]

theorem mainTick_of_ok {inp s u} (h : collect_stats inp s = .ok u) :
    mainTick inp s = u := by
  unfold mainTick
  rw [h]

theorem mainTick_of_error {inp s e} (h : collect_stats inp s = .error e) :
    mainTick inp s = clear_stats e := by
  unfold mainTick
  rw [h]

theorem runTo_take_succ {inps : List TickInput} {s : os_stats} {k : Nat}
    (hk : k < inps.length) :
    runTo (inps.take (k + 1)) s = mainTick inps[k] (runTo (inps.take k) s) := by
  rw [List.take_succ, List.getElem?_eq_getElem hk]
  unfold runTo
  rw [List.foldl_append]
  rfl

/-- Claim C1: over any run of ticks that all succeed with valid
network-interface readings, starting from a state with no stored
baseline, the reported network receive rate is 0 at the first tick and
equals the just-read raw receive-byte counter minus the previous tick's
raw counter at every later tick (likewise for transmit), and the stored
baseline is overwritten with the just-read raw values on every tick. -/
theorem net_rates_over_run
    (s0 : os_stats) (nm : Str) (inps : List TickInput) (vals : Nat → Int × Int)
    (hintf : s0.cfg.net_intf = some nm)
    (hprev1 : s0.net.bytes_rec_prev = none)
    (hprev2 : s0.net.bytes_trans_prev = none)
    (hok : ∀ k, (hk : k < inps.length) →
      (collect_stats inps[k] (runTo (inps.take k) s0)).isOk = true)
    (hread : ∀ k, (hk : k < inps.length) → netReading nm inps[k] = some (vals k)) :
    ∀ k, (hk : k < inps.length) →
      ((runTo (inps.take (k + 1)) s0).net.rec_rate =
        if k = 0 then 0 else (vals k).1 - (vals (k - 1)).1) ∧
      ((runTo (inps.take (k + 1)) s0).net.trans_rate =
        if k = 0 then 0 else (vals k).2 - (vals (k - 1)).2) ∧
      (runTo (inps.take (k + 1)) s0).net.bytes_rec_prev = some (vals k).1 ∧
      (runTo (inps.take (k + 1)) s0).net.bytes_trans_prev = some (vals k).2 := by
  intro k
  induction k with
  | zero =>
    intro hk
    obtain ⟨u, hu⟩ := isOk_iff_ok.mp (hok 0 hk)
    have hread0 : netReading nm inps[0] = some ((vals 0).1, (vals 0).2) := by
      rw [hread 0 hk, Prod.mk.eta]
    have hu0 : collect_stats inps[0] s0 = .ok u := hu
    have hchar := collect_net_char hintf hread0 hu0
    have hstate : runTo (inps.take 1) s0 = u := by
      rw [runTo_take_succ hk]
      exact mainTick_of_ok hu
    rw [hstate]
    simp only [if_pos rfl]
    exact ⟨(hchar.2.2.2.2.2.1 hprev1 hprev2).1, (hchar.2.2.2.2.2.1 hprev1 hprev2).2,
      hchar.2.2.2.1, hchar.2.2.2.2.1⟩
  | succ k ih =>
    intro hk
    have hk1 : k < inps.length := Nat.lt_of_succ_lt hk
    obtain ⟨_, _, ihp1, ihp2⟩ := ih hk1
    obtain ⟨u, hu⟩ := isOk_iff_ok.mp (hok (k + 1) hk)
    have hintfPrev : (runTo (inps.take (k + 1)) s0).cfg.net_intf = some nm := by
      rw [runTo_cfg, hintf]
    have hreadk : netReading nm inps[k + 1] = some ((vals (k + 1)).1, (vals (k + 1)).2) := by
      rw [hread (k + 1) hk, Prod.mk.eta]
    have hchar := collect_net_char hintfPrev hreadk hu
    have hstate : runTo (inps.take (k + 2)) s0 = u := by
      rw [runTo_take_succ hk]
      exact mainTick_of_ok hu
    rw [hstate]
    have hrates := hchar.2.2.2.2.2.2 (vals k).1 (vals k).2 ihp1 ihp2
    simp only [Nat.succ_ne_zero, if_neg, Nat.add_sub_cancel]
    exact ⟨hrates.1, hrates.2, hchar.2.2.2.1, hchar.2.2.2.2.1⟩

/-- Concrete two-tick scenario used to witness the run-level theorems:
the spec's first/second tick example (rx 500/tx 200, then rx 1500/tx 700)
with sectors 3/7 then 13/7. -/
def wCfg : Cfg where
  host_type := "generic".toList
  gpu_type := "none".toList
  net_intf := some ("eth0".toList)
  io_device := some ("sda".toList)
  cpu_thermal_zone_id := none
  nvme_drive_id := none
  nvme_hwmon_id := none
  gpu_card_id := none
  gpu_hwmon_id := none

def wS0 : os_stats where
  cfg := wCfg
  net := { bytes_rec_prev := none, bytes_trans_prev := none,
           bytes_rec := 0, bytes_trans := 0, rec_rate := 0, trans_rate := 0 }
  io := { sectors_read_prev := none, sectors_written_prev := none,
          sectors_read := 0, sectors_written := 0, bytes_read := 0, bytes_written := 0 }
  avg_cpu_usage := .int 0
  memory_load := 0
  uptime := 0
  gpu := { usage := 0, memory_usage := 0, temp := 0 }
  cpu_package_temp := 0
  nvme_composite_temp := 0

def wI1 : TickInput where
  loadavg := .ok ("0.42 0.38 0.30 1/512 1234".toList)
  meminfo := .ok ("MemTotal: 16000000 kB\nMemAvailable: 9000000 kB\n".toList)
  uptime := .ok ("3600.27 7200.11".toList)
  net_dev := .ok ("eth0: 500 0 0 0 0 0 0 0 200 0\n".toList)
  diskstats := .ok ("8 0 sda 1 2 3 100 5 6 7 8 9 300 11\n".toList)
  cpu_temp := .error ()
  nvme_temp := .error ()
  gpu_sys_temp := .error ()
  nvidia_out := .error ()
  vcgencmd_out := .error ()

def wI2 : TickInput :=
  { wI1 with net_dev := .ok ("eth0: 1500 0 0 0 0 0 0 0 700 0\n".toList),
             diskstats := .ok ("8 0 sda 1 2 13 100 5 6 7 8 9 300 11\n".toList) }

def wNetVals : Nat → Int × Int := fun k => if k = 0 then (500, 200) else (1500, 700)

theorem net_rates_over_run_witness :
    (runTo ([wI1, wI2].take 2) wS0).net.rec_rate = 1000 ∧
    (runTo ([wI1, wI2].take 2) wS0).net.trans_rate = 500 ∧
    (runTo ([wI1, wI2].take 2) wS0).net.bytes_rec_prev = some 1500 := by
  have h := net_rates_over_run wS0 ("eth0".toList) [wI1, wI2] wNetVals rfl rfl rfl
    (by decide) (by decide) 1 (by decide)
  refine ⟨?_, ?_, ?_⟩
  · rw [h.1]; decide
  · rw [h.2.1]; decide
  · rw [h.2.2.1]; decide

/-- Claim C3: over any run of ticks that all succeed with valid
disk-statistics readings, the per-tick I/O byte rates follow the same
rule as the network counters - zero at the first tick, delta against the
previous tick's raw sector counters otherwise - with the sector delta
multiplied by the fixed sector size of 512 bytes, and the sector baseline
is always overwritten with the just-read values. -/
theorem io_rates_over_run
    (s0 : os_stats) (dev : Str) (inps : List TickInput) (vals : Nat → Int × Int)
    (hdev : s0.cfg.io_device = some dev)
    (hprev1 : s0.io.sectors_read_prev = none)
    (hprev2 : s0.io.sectors_written_prev = none)
    (hok : ∀ k, (hk : k < inps.length) →
      (collect_stats inps[k] (runTo (inps.take k) s0)).isOk = true)
    (hread : ∀ k, (hk : k < inps.length) → ioReading dev inps[k] = some (vals k)) :
    ∀ k, (hk : k < inps.length) →
      ((runTo (inps.take (k + 1)) s0).io.bytes_read =
        if k = 0 then 0 else ((vals k).1 - (vals (k - 1)).1) * IO_SECTOR_SIZE) ∧
      ((runTo (inps.take (k + 1)) s0).io.bytes_written =
        if k = 0 then 0 else ((vals k).2 - (vals (k - 1)).2) * IO_SECTOR_SIZE) ∧
      (runTo (inps.take (k + 1)) s0).io.sectors_read_prev = some (vals k).1 ∧
      (runTo (inps.take (k + 1)) s0).io.sectors_written_prev = some (vals k).2 := by
  intro k
  induction k with
  | zero =>
    intro hk
    obtain ⟨u, hu⟩ := isOk_iff_ok.mp (hok 0 hk)
    have hread0 : ioReading dev inps[0] = some ((vals 0).1, (vals 0).2) := by
      rw [hread 0 hk, Prod.mk.eta]
    have hu0 : collect_stats inps[0] s0 = .ok u := hu
    have hchar := collect_io_char hdev hread0 hu0
    have hstate : runTo (inps.take 1) s0 = u := by
      rw [runTo_take_succ hk]
      exact mainTick_of_ok hu
    rw [hstate]
    simp only [if_pos rfl]
    exact ⟨(hchar.2.2.2.2.2.1 hprev1 hprev2).1, (hchar.2.2.2.2.2.1 hprev1 hprev2).2,
      hchar.2.2.2.1, hchar.2.2.2.2.1⟩
  | succ k ih =>
    intro hk
    have hk1 : k < inps.length := Nat.lt_of_succ_lt hk
    obtain ⟨_, _, ihp1, ihp2⟩ := ih hk1
    obtain ⟨u, hu⟩ := isOk_iff_ok.mp (hok (k + 1) hk)
    have hdevPrev : (runTo (inps.take (k + 1)) s0).cfg.io_device = some dev := by
      rw [runTo_cfg, hdev]
    have hreadk : ioReading dev inps[k + 1] = some ((vals (k + 1)).1, (vals (k + 1)).2) := by
      rw [hread (k + 1) hk, Prod.mk.eta]
    have hchar := collect_io_char hdevPrev hreadk hu
    have hstate : runTo (inps.take (k + 2)) s0 = u := by
      rw [runTo_take_succ hk]
      exact mainTick_of_ok hu
    rw [hstate]
    have hrates := hchar.2.2.2.2.2.2 (vals k).1 (vals k).2 ihp1 ihp2
    simp only [Nat.succ_ne_zero, if_neg, Nat.add_sub_cancel]
    exact ⟨hrates.1, hrates.2, hchar.2.2.2.1, hchar.2.2.2.2.1⟩

theorem io_rates_over_run_witness :
    (runTo ([wI1, wI2].take 2) wS0).io.bytes_read = 5120 ∧
    (runTo ([wI1, wI2].take 2) wS0).io.bytes_written = 0 ∧
    (runTo ([wI1, wI2].take 2) wS0).io.sectors_read_prev = some 13 := by
  have h := io_rates_over_run wS0 ("sda".toList) [wI1, wI2]
    (fun k => if k = 0 then (3, 7) else (13, 7)) rfl rfl rfl
    (by decide) (by decide) 1 (by decide)
  refine ⟨?_, ?_, ?_⟩
  · rw [h.1]; decide
  · rw [h.2.1]; decide
  · rw [h.2.2.1]; decide

def wIbad : TickInput := { wI1 with loadavg := .error () }

/-- Claim C2 counterexample: run a successful tick (rx 500), then a
tick-fatal loadavg failure, then a successful tick (rx 1500).  The reset
does not clear the baselines (still 500 after the failed tick), and the
tick after the failure reports rate 1000, not 0: it does not behave like
a first tick. -/
theorem clear_keeps_baseline_counterexample :
    (collect_stats wIbad (runTo [wI1] wS0)).isOk = false ∧
    (runTo [wI1, wIbad] wS0).net.bytes_rec_prev = some 500 ∧
    (runTo [wI1, wIbad] wS0).io.sectors_read_prev = some 3 ∧
    (collect_stats wI2 (runTo [wI1, wIbad] wS0)).isOk = true ∧
    (runTo [wI1, wIbad, wI2] wS0).net.rec_rate = 1000 ∧
    ¬ (runTo [wI1, wIbad, wI2] wS0).net.rec_rate = 0 ∧
    (runTo [wI1, wIbad, wI2] wS0).io.bytes_read = 5120 ∧
    ¬ (runTo [wI1, wIbad, wI2] wS0).io.bytes_read = 0 := by
  decide

theorem collect_error_of_loadavg {inp : TickInput} {s}
    (hbad : inp.loadavg = .error ()) : collect_stats inp s = .error s := by
  have hl : stepLoadavg inp s = .error s := by
    unfold stepLoadavg
    rw [hbad]
  unfold collect_stats
  rw [hl]
  rfl

/-- Claim C2 amended: a tick-fatal failure zeroes the reported metrics
and current raw counter copies but leaves the previous-counter baselines
in place; the immediately following successful tick therefore computes
its deltas against the pre-failure baselines (current minus old baseline)
instead of reporting zero rates, and then overwrites the baselines with
its just-read values. -/
theorem tick_after_failure_uses_old_baseline
    {s : os_stats} {inpBad inpGood : TickInput} {nm dev : Str} {p q p2 q2 : Int}
    (hintf : s.cfg.net_intf = some nm)
    (hdev : s.cfg.io_device = some dev)
    (hnp1 : s.net.bytes_rec_prev = some p)
    (hnp2 : s.net.bytes_trans_prev = some q)
    (hip1 : s.io.sectors_read_prev = some p2)
    (hip2 : s.io.sectors_written_prev = some q2)
    (hbad : inpBad.loadavg = .error ()) :
    (mainTick inpBad s).net.bytes_rec_prev = some p ∧
    (mainTick inpBad s).net.bytes_trans_prev = some q ∧
    (mainTick inpBad s).io.sectors_read_prev = some p2 ∧
    (mainTick inpBad s).io.sectors_written_prev = some q2 ∧
    (mainTick inpBad s).net.rec_rate = 0 ∧
    (mainTick inpBad s).net.bytes_rec = 0 ∧
    (mainTick inpBad s).io.bytes_read = 0 ∧
    (mainTick inpBad s).io.sectors_read = 0 ∧
    (∀ r t u, netReading nm inpGood = some (r, t) →
      collect_stats inpGood (mainTick inpBad s) = .ok u →
      u.net.rec_rate = r - p ∧ u.net.trans_rate = t - q ∧
      u.net.bytes_rec_prev = some r ∧ u.net.bytes_trans_prev = some t) ∧
    (∀ r w u, ioReading dev inpGood = some (r, w) →
      collect_stats inpGood (mainTick inpBad s) = .ok u →
      u.io.bytes_read = (r - p2) * IO_SECTOR_SIZE ∧
      u.io.bytes_written = (w - q2) * IO_SECTOR_SIZE ∧
      u.io.sectors_read_prev = some r ∧ u.io.sectors_written_prev = some w) := by
  have hm : mainTick inpBad s = clear_stats s :=
    mainTick_of_error (collect_error_of_loadavg hbad)
  rw [hm]
  refine ⟨hnp1, hnp2, hip1, hip2, rfl, rfl, rfl, rfl, ?_, ?_⟩
  · intro r t u hread hcu
    have hintfC : (clear_stats s).cfg.net_intf = some nm := hintf
    have hchar := collect_net_char hintfC hread hcu
    have h1 : (clear_stats s).net.bytes_rec_prev = some p := hnp1
    have h2 : (clear_stats s).net.bytes_trans_prev = some q := hnp2
    have hr := hchar.2.2.2.2.2.2 p q h1 h2
    exact ⟨hr.1, hr.2, hchar.2.2.2.1, hchar.2.2.2.2.1⟩
  · intro r w u hread hcu
    have hdevC : (clear_stats s).cfg.io_device = some dev := hdev
    have hchar := collect_io_char hdevC hread hcu
    have h1 : (clear_stats s).io.sectors_read_prev = some p2 := hip1
    have h2 : (clear_stats s).io.sectors_written_prev = some q2 := hip2
    have hr := hchar.2.2.2.2.2.2 p2 q2 h1 h2
    exact ⟨hr.1, hr.2, hchar.2.2.2.1, hchar.2.2.2.2.1⟩

theorem tick_after_failure_uses_old_baseline_witness :
    (mainTick wIbad (runTo [wI1] wS0)).net.bytes_rec_prev = some 500 ∧
    (runTo [wI1, wIbad, wI2] wS0).net.rec_rate = 1500 - 500 := by
  have hs := @tick_after_failure_uses_old_baseline (runTo [wI1] wS0) wIbad wI2
    ("eth0".toList) ("sda".toList) 500 200 3 7
    (by decide) (by decide) (by decide) (by decide) (by decide) (by decide) rfl
  refine ⟨hs.1, ?_⟩
  have hrun : runTo [wI1, wIbad, wI2] wS0 =
      mainTick wI2 (mainTick wIbad (runTo [wI1] wS0)) := rfl
  obtain ⟨u, hu⟩ : ∃ u, collect_stats wI2 (mainTick wIbad (runTo [wI1] wS0)) = .ok u :=
    isOk_iff_ok.mp (by decide)
  have := (hs.2.2.2.2.2.2.2.2.1 1500 700 u (by decide) hu).1
  rw [hrun, mainTick_of_ok hu]
  exact this

def wINoLabels : TickInput := { wI1 with meminfo := .ok ("Foo: 1 kB\nBar: 2 kB\n".toList) }

def wINoAvail : TickInput := { wI1 with meminfo := .ok ("MemTotal: 100 kB\n".toList) }

/-- Claim C4 counterexample: a meminfo text with neither label (or with
only MemTotal) is not a tick failure: the scan leaves the missing value
at int 0, the subtraction succeeds, and the tick produces a snapshot
(memory_load 0, respectively 100). -/
theorem meminfo_missing_label_counterexample :
    (collect_stats wINoLabels wS0).isOk = true ∧
    (mainTick wINoLabels wS0).memory_load = 0 ∧
    (collect_stats wINoAvail wS0).isOk = true ∧
    (mainTick wINoAvail wS0).memory_load = 100 := by
  decide

theorem stepMeminfo_char {inp : TickInput} {s : os_stats} {c t a x y}
    (hmem : inp.meminfo = .ok c)
    (hscan : memScan (pySplitlines c) (.int 0) (.int 0) = .ok (t, a))
    (hx : pyIntSI t = some x) (hy : pyIntSI a = some y) :
    stepMeminfo inp s = .ok { s with memory_load := x - y } := by
  unfold stepMeminfo
  rw [hmem]
  dsimp only
  rw [hscan]
  dsimp only
  rw [hx, hy]

theorem memScan_no_labels {ls : List Str}
    (h : ∀ l ∈ ls, ¬ ("MemTotal".toList).isPrefixOf l ∧
      ¬ ("MemAvailable".toList).isPrefixOf l) :
    memScan ls (.int 0) (.int 0) = .ok (.int 0, .int 0) := by
  induction ls with
  | nil => rfl
  | cons l ls ih =>
    have hl := h l (List.mem_cons_self l ls)
    unfold memScan
    rw [if_neg (by simpa using hl.1), if_neg (by simpa using hl.2)]
    simp only [strIntNeZero, Bool.and_self]
    rw [if_neg (by decide)]
    exact ih (fun x hx => h x (List.mem_cons_of_mem l hx))

/-- Claim C4 amended: on a successful tick the meminfo step reports
int(total) - int(available) for whatever values the label scan found
(MemTotal minus MemAvailable whenever both labels are present); a missing
label is not a tick failure - its scratch value stays int 0, so with
neither label present the tick still succeeds and reports used memory
0. -/
theorem meminfo_total_minus_available {inp : TickInput} {s u : os_stats} {c : Str}
    (hmem : inp.meminfo = .ok c)
    (h : collect_stats inp s = .ok u) :
    (∀ t a x y, memScan (pySplitlines c) (.int 0) (.int 0) = .ok (t, a) →
      pyIntSI t = some x → pyIntSI a = some y → u.memory_load = x - y) ∧
    ((∀ l ∈ pySplitlines c, ¬ ("MemTotal".toList).isPrefixOf l ∧
        ¬ ("MemAvailable".toList).isPrefixOf l) →
      u.memory_load = 0) := by
  obtain ⟨s1, s2, s3, s4, s5, s6, s7, h1, h2, h3, h4, h5, h6, h7, h8⟩ :=
    collect_ok_decomp h
  have humem : u.memory_load = s2.memory_load := by
    rw [(stepGpu_frames.1 _ h8).2.2.2.2.1, (stepNvmeTemp_frames.1 _ h7).2.2.2.2.1,
      (stepCpuTemp_frames.1 _ h6).2.2.2.2.1, (stepIoDev_frames.1 _ h5).2.2.2.1,
      (stepNetDev_frames.1 _ h4).2.2.2.1, (stepUptime_frames.1 _ h3).2.2.2.2.1]
  constructor
  · intro t a x y hscan hx hy
    rw [stepMeminfo_char hmem hscan hx hy] at h2
    injection h2 with h2
    rw [humem, ← h2]
  · intro hnone
    rw [stepMeminfo_char hmem (memScan_no_labels hnone) rfl rfl] at h2
    injection h2 with h2
    rw [humem, ← h2]
    rfl

theorem meminfo_total_minus_available_witness :
    ∃ u, collect_stats wI1 wS0 = .ok u ∧ u.memory_load = 16000000 - 9000000 := by
  obtain ⟨u, hu⟩ : ∃ u, collect_stats wI1 wS0 = .ok u := isOk_iff_ok.mp (by decide)
  refine ⟨u, hu, ?_⟩
  exact (meminfo_total_minus_available rfl hu).1
    (.str ("16000000".toList)) (.str ("9000000".toList)) 16000000 9000000
    (by decide) (by decide) (by decide)

/-- The selection rule the spec describes for the net-device file: the
first line whose leading token (the text before the colon, stripped)
equals the interface name. -/
def tokenEqSelect (nm : Str) (c : Str) : Option Str :=
  (pySplitlines c).find? (fun l => pyStrip ((splitSep ':' l).headD []) = nm)

def wC7s : os_stats := { wS0 with cfg := { wCfg with net_intf := some ("eth1".toList) } }

def wC7net : Str := "eth10: 100 0 0 0 0 0 0 0 900 0\neth1: 5 0 0 0 0 0 0 0 7 0\n".toList

def wC7i : TickInput := { wI1 with net_dev := .ok wC7net }

/-- Claim C7 counterexample: with interface eth1 configured and a line
for eth10 listed first, the sampler takes eth10's counters (100/900),
although the line whose leading token equals eth1 carries 5/7: selection
is by prefix of the left-stripped line, not by token equality. -/
theorem net_line_token_equality_counterexample :
    (mainTick wC7i wC7s).net.bytes_rec = 100 ∧
    (mainTick wC7i wC7s).net.bytes_trans = 900 ∧
    ¬ (mainTick wC7i wC7s).net.bytes_rec = 5 ∧
    tokenEqSelect ("eth1".toList) wC7net = some ("eth1: 5 0 0 0 0 0 0 0 7 0".toList) := by
  decide

/-- Claim C7 amended: the sampler selects the first line whose
left-stripped text has the configured interface name as a prefix (so a
longer interface name sharing the prefix can shadow the intended line),
and takes the 1st and 9th whitespace fields after the colon of that line
as the receive and transmit byte counters. -/
theorem net_line_prefix_selection {inp : TickInput} {s u : os_stats} {nm c l rest f0 f8 : Str}
    {r t : Int}
    (hintf : s.cfg.net_intf = some nm)
    (hc : inp.net_dev = .ok c)
    (hfind : (pySplitlines c).find? (fun l2 => nm.isPrefixOf (pyLstrip l2)) = some l)
    (hcol : (splitSep ':' l)[1]? = some rest)
    (hf0 : (wsSplit rest)[0]? = some f0) (hr : pyInt f0 = some r)
    (hf8 : (wsSplit rest)[8]? = some f8) (ht : pyInt f8 = some t)
    (h : collect_stats inp s = .ok u) :
    u.net.bytes_rec = r ∧ u.net.bytes_trans = t ∧
    u.net.bytes_rec_prev = some r ∧ u.net.bytes_trans_prev = some t := by
  have hp : parseNetVals nm c = some (r, t) := by
    unfold parseNetVals
    rw [hfind]
    dsimp only
    rw [hcol]
    dsimp only
    rw [hf0]
    dsimp only
    rw [hr]
    dsimp only
    rw [hf8]
    dsimp only
    rw [ht]
  have hread : netReading nm inp = some (r, t) := by
    unfold netReading
    rw [hc]
    dsimp only
    exact hp
  have hchar := collect_net_char hintf hread h
  exact ⟨hchar.2.1, hchar.2.2.1, hchar.2.2.2.1, hchar.2.2.2.2.1⟩

theorem net_line_prefix_selection_witness :
    ∃ u, collect_stats wC7i wC7s = .ok u ∧ u.net.bytes_rec = 100 ∧
      u.net.bytes_trans = 900 := by
  obtain ⟨u, hu⟩ : ∃ u, collect_stats wC7i wC7s = .ok u := isOk_iff_ok.mp (by decide)
  have hsel := @net_line_prefix_selection wC7i wC7s u ("eth1".toList) wC7net
    ("eth10: 100 0 0 0 0 0 0 0 900 0".toList) (" 100 0 0 0 0 0 0 0 900 0".toList)
    ("100".toList) ("900".toList) 100 900
    rfl rfl (by decide) (by decide) (by decide) (by decide) (by decide) (by decide) hu
  exact ⟨u, hu, hsel.1, hsel.2.1⟩

/-- Claim C10: when no line of the net-device file matches the configured
interface (and no diskstats line matches the device), the tick does not
fail for those steps: the previously stored current raw values (zero
right after construction or after a reset) are used as this tick's
reading, a delta is computed from them as usual, and the baseline is
overwritten with those stale values. -/
theorem unmatched_line_keeps_stale_counters {inp : TickInput} {s u : os_stats}
    {nm dev cn cd : Str}
    (hintf : s.cfg.net_intf = some nm)
    (hdev : s.cfg.io_device = some dev)
    (hcn : inp.net_dev = .ok cn)
    (hcd : inp.diskstats = .ok cd)
    (hfn : (pySplitlines cn).find? (fun l => nm.isPrefixOf (pyLstrip l)) = none)
    (hfd : (pySplitlines cd).find? (fun l => strInStr dev l) = none)
    (h : collect_stats inp s = .ok u) :
    (u.net.bytes_rec = s.net.bytes_rec ∧ u.net.bytes_trans = s.net.bytes_trans ∧
      u.net.bytes_rec_prev = some s.net.bytes_rec ∧
      u.net.bytes_trans_prev = some s.net.bytes_trans ∧
      (s.net.bytes_rec_prev = none → s.net.bytes_trans_prev = none →
        u.net.rec_rate = 0 ∧ u.net.trans_rate = 0) ∧
      (∀ p q, s.net.bytes_rec_prev = some p → s.net.bytes_trans_prev = some q →
        u.net.rec_rate = s.net.bytes_rec - p ∧ u.net.trans_rate = s.net.bytes_trans - q)) ∧
    (u.io.sectors_read = s.io.sectors_read ∧ u.io.sectors_written = s.io.sectors_written ∧
      u.io.sectors_read_prev = some s.io.sectors_read ∧
      u.io.sectors_written_prev = some s.io.sectors_written ∧
      (s.io.sectors_read_prev = none → s.io.sectors_written_prev = none →
        u.io.bytes_read = 0 ∧ u.io.bytes_written = 0) ∧
      (∀ p q, s.io.sectors_read_prev = some p → s.io.sectors_written_prev = some q →
        u.io.bytes_read = (s.io.sectors_read - p) * IO_SECTOR_SIZE ∧
        u.io.bytes_written = (s.io.sectors_written - q) * IO_SECTOR_SIZE)) ∧
    ((clear_stats s).net.bytes_rec = 0 ∧ (clear_stats s).net.bytes_trans = 0 ∧
      (clear_stats s).io.sectors_read = 0 ∧ (clear_stats s).io.sectors_written = 0) ∧
    (∀ host gpuT cz nd nh gc gh,
      (osInit host gpuT cz nd nh gc gh).net.bytes_rec = 0 ∧
      (osInit host gpuT cz nd nh gc gh).io.sectors_read = 0) := by
  obtain ⟨s1, s2, s3, s4, s5, s6, s7, h1, h2, h3, h4, h5, h6, h7, h8⟩ :=
    collect_ok_decomp h
  have hcfg3 : s3.cfg = s.cfg := by
    rw [(stepUptime_frames.1 _ h3).1, (stepMeminfo_frames.1 _ h2).1,
      (stepLoadavg_frames.1 _ h1).1]
  have hnet3 : s3.net = s.net := by
    rw [(stepUptime_frames.1 _ h3).2.1, (stepMeminfo_frames.1 _ h2).2.1,
      (stepLoadavg_frames.1 _ h1).2.1]
  have hunet : u.net = s4.net := by
    rw [(stepGpu_frames.1 _ h8).2.1, (stepNvmeTemp_frames.1 _ h7).2.1,
      (stepCpuTemp_frames.1 _ h6).2.1, (stepIoDev_frames.1 _ h5).2.1]
  have hintf3 : s3.cfg.net_intf = some nm := by rw [hcfg3, hintf]
  rw [stepNetDev_nomatch hintf3 hcn hfn] at h4
  have hcfg4 : s4.cfg = s.cfg := by
    rcases netRates_ok_prev h4 with _
    have := stepNetDev_nomatch hintf3 hcn hfn
    unfold netRates at h4
    revert h4
    cases hpa : s3.net.bytes_rec_prev <;> cases hpb : s3.net.bytes_trans_prev <;>
      intro h4 <;> first
        | exact Except.noConfusion h4
        | (injection h4 with h4; rw [← h4, hcfg3])
  have hio4 : s4.io = s.io := by
    unfold netRates at h4
    revert h4
    have hioeq : s3.io = s.io := by
      rw [(stepUptime_frames.1 _ h3).2.2.1, (stepMeminfo_frames.1 _ h2).2.2.1,
        (stepLoadavg_frames.1 _ h1).2.2.1]
    cases hpa : s3.net.bytes_rec_prev <;> cases hpb : s3.net.bytes_trans_prev <;>
      intro h4 <;> first
        | exact Except.noConfusion h4
        | (injection h4 with h4; rw [← h4]; exact hioeq)
  have huio : u.io = s5.io := by
    rw [(stepGpu_frames.1 _ h8).2.2.1, (stepNvmeTemp_frames.1 _ h7).2.2.1,
      (stepCpuTemp_frames.1 _ h6).2.2.1]
  have hdev4 : s4.cfg.io_device = some dev := by rw [hcfg4, hdev]
  rw [stepIoDev_nomatch hdev4 hcd hfd] at h5
  refine ⟨?_, ?_, ⟨rfl, rfl, rfl, rfl⟩, fun _ _ _ _ _ _ _ => ⟨rfl, rfl⟩⟩
  · revert h4
    unfold netRates
    cases hpa : s3.net.bytes_rec_prev with
    | none =>
      cases hpb : s3.net.bytes_trans_prev with
      | none =>
        intro h4
        injection h4 with h4
        have hprevs : s.net.bytes_rec_prev = none ∧ s.net.bytes_trans_prev = none := by
          rw [← hnet3]
          exact ⟨hpa, hpb⟩
        refine ⟨?_, ?_, ?_, ?_, ?_, ?_⟩
        · rw [hunet, ← h4, hnet3]
        · rw [hunet, ← h4, hnet3]
        · rw [hunet, ← h4, hnet3]
        · rw [hunet, ← h4, hnet3]
        · intro _ _
          constructor
          · rw [hunet, ← h4]
          · rw [hunet, ← h4]
        · intro p q hp _
          rw [hprevs.1] at hp
          exact Option.noConfusion hp
      | some q => intro h4; exact Except.noConfusion h4
    | some p =>
      cases hpb : s3.net.bytes_trans_prev with
      | none => intro h4; exact Except.noConfusion h4
      | some q =>
        intro h4
        injection h4 with h4
        have hprevs : s.net.bytes_rec_prev = some p ∧ s.net.bytes_trans_prev = some q := by
          rw [← hnet3]
          exact ⟨hpa, hpb⟩
        refine ⟨?_, ?_, ?_, ?_, ?_, ?_⟩
        · rw [hunet, ← h4, hnet3]
        · rw [hunet, ← h4, hnet3]
        · rw [hunet, ← h4, hnet3]
        · rw [hunet, ← h4, hnet3]
        · intro hn _
          rw [hprevs.1] at hn
          exact Option.noConfusion hn
        · intro p2 q2 hp hq
          rw [hprevs.1] at hp
          rw [hprevs.2] at hq
          injection hp with hp
          injection hq with hq
          subst hp
          subst hq
          constructor
          · rw [hunet, ← h4, hnet3]
          · rw [hunet, ← h4, hnet3]
  · have hio4s : s4.io = s.io := hio4
    revert h5
    unfold ioRates
    cases hpa : s4.io.sectors_read_prev with
    | none =>
      cases hpb : s4.io.sectors_written_prev with
      | none =>
        intro h5
        injection h5 with h5
        have hprevs : s.io.sectors_read_prev = none ∧ s.io.sectors_written_prev = none := by
          rw [← hio4s]
          exact ⟨hpa, hpb⟩
        refine ⟨?_, ?_, ?_, ?_, ?_, ?_⟩
        · rw [huio, ← h5, hio4s]
        · rw [huio, ← h5, hio4s]
        · rw [huio, ← h5, hio4s]
        · rw [huio, ← h5, hio4s]
        · intro _ _
          constructor
          · rw [huio, ← h5]
          · rw [huio, ← h5]
        · intro p q hp _
          rw [hprevs.1] at hp
          exact Option.noConfusion hp
      | some q => intro h5; exact Except.noConfusion h5
    | some p =>
      cases hpb : s4.io.sectors_written_prev with
      | none => intro h5; exact Except.noConfusion h5
      | some q =>
        intro h5
        injection h5 with h5
        have hprevs : s.io.sectors_read_prev = some p ∧ s.io.sectors_written_prev = some q := by
          rw [← hio4s]
          exact ⟨hpa, hpb⟩
        refine ⟨?_, ?_, ?_, ?_, ?_, ?_⟩
        · rw [huio, ← h5, hio4s]
        · rw [huio, ← h5, hio4s]
        · rw [huio, ← h5, hio4s]
        · rw [huio, ← h5, hio4s]
        · intro hn _
          rw [hprevs.1] at hn
          exact Option.noConfusion hn
        · intro p2 q2 hp hq
          rw [hprevs.1] at hp
          rw [hprevs.2] at hq
          injection hp with hp
          injection hq with hq
          subst hp
          subst hq
          constructor
          · rw [huio, ← h5, hio4s]
          · rw [huio, ← h5, hio4s]

def wC10i : TickInput :=
  { wI1 with net_dev := .ok ("lo: 9 0 0 0 0 0 0 0 9 0\n".toList), diskstats := .ok ("8 0 sdb 1 2 3 4 5 6 7 8 9 10 11\n".toList) }

theorem unmatched_line_keeps_stale_counters_witness :
    ∃ u, collect_stats wC10i wS0 = .ok u ∧
      u.net.bytes_rec = 0 ∧ u.net.bytes_rec_prev = some 0 ∧ u.net.rec_rate = 0 ∧
      u.io.sectors_read = 0 ∧ u.io.sectors_read_prev = some 0 := by
  obtain ⟨u, hu⟩ : ∃ u, collect_stats wC10i wS0 = .ok u :=
    isOk_iff_ok.mp (by decide)
  have hch := @unmatched_line_keeps_stale_counters wC10i wS0 u
    ("eth0".toList) ("sda".toList) ("lo: 9 0 0 0 0 0 0 0 9 0\n".toList)
    ("8 0 sdb 1 2 3 4 5 6 7 8 9 10 11\n".toList)
    rfl rfl rfl rfl (by decide) (by decide) hu
  refine ⟨u, hu, hch.1.1, hch.1.2.2.1, (hch.1.2.2.2.2.1 rfl rfl).1, hch.2.1.1, hch.2.1.2.2.1⟩

theorem stepNetDev_ok_prev {inp s t} (h : stepNetDev inp s = .ok t) :
    t.net.bytes_rec_prev = some t.net.bytes_rec ∧
    t.net.bytes_trans_prev = some t.net.bytes_trans := by
  unfold stepNetDev netRates at h
  repeat' first
    | split at h
    | dsimp only at h
  all_goals first
    | exact Except.noConfusion h
    | (injection h with h; subst h; simp)

theorem stepIoDev_ok_prev {inp s t} (h : stepIoDev inp s = .ok t) :
    t.io.sectors_read_prev = some t.io.sectors_read ∧
    t.io.sectors_written_prev = some t.io.sectors_written := by
  unfold stepIoDev ioRates at h
  repeat' first
    | split at h
    | dsimp only at h
  all_goals first
    | exact Except.noConfusion h
    | (injection h with h; subst h; simp)

theorem stepNetDev_file_error {inp s} (hbad : inp.net_dev = .error ()) :
    stepNetDev inp s = .error s := by
  unfold stepNetDev
  rw [hbad]

/-- Claim C9: the previous raw counter baselines are only ever
overwritten, together, with the just-read raw counter values by a tick
whose counter section completed its read: a clear_stats reset never
touches them, a successful tick always leaves them equal to some of the
just-read values, a failed tick leaves each source's baselines either
untouched or (when the failure came after that source's section) equal to
some of that section's just-read values, and a tick whose net-device read
itself raised leaves all four baselines exactly as they were. -/
theorem baselines_only_overwritten_by_reads {inp : TickInput} {s : os_stats} :
    ((clear_stats s).net.bytes_rec_prev = s.net.bytes_rec_prev ∧
     (clear_stats s).net.bytes_trans_prev = s.net.bytes_trans_prev ∧
     (clear_stats s).io.sectors_read_prev = s.io.sectors_read_prev ∧
     (clear_stats s).io.sectors_written_prev = s.io.sectors_written_prev) ∧
    (∀ u, collect_stats inp s = .ok u →
      u.net.bytes_rec_prev = some u.net.bytes_rec ∧
      u.net.bytes_trans_prev = some u.net.bytes_trans ∧
      u.io.sectors_read_prev = some u.io.sectors_read ∧
      u.io.sectors_written_prev = some u.io.sectors_written) ∧
    (∀ e, collect_stats inp s = .error e →
      ((e.net.bytes_rec_prev = s.net.bytes_rec_prev ∧
        e.net.bytes_trans_prev = s.net.bytes_trans_prev) ∨
       (e.net.bytes_rec_prev = some e.net.bytes_rec ∧
        e.net.bytes_trans_prev = some e.net.bytes_trans)) ∧
      ((e.io.sectors_read_prev = s.io.sectors_read_prev ∧
        e.io.sectors_written_prev = s.io.sectors_written_prev) ∨
       (e.io.sectors_read_prev = some e.io.sectors_read ∧
        e.io.sectors_written_prev = some e.io.sectors_written))) ∧
    (inp.net_dev = .error () → ∀ e, collect_stats inp s = .error e →
      e.net.bytes_rec_prev = s.net.bytes_rec_prev ∧
      e.net.bytes_trans_prev = s.net.bytes_trans_prev ∧
      e.io.sectors_read_prev = s.io.sectors_read_prev ∧
      e.io.sectors_written_prev = s.io.sectors_written_prev) := by
  refine ⟨⟨rfl, rfl, rfl, rfl⟩, ?_, ?_, ?_⟩
  · intro u h
    obtain ⟨s1, s2, s3, s4, s5, s6, s7, h1, h2, h3, h4, h5, h6, h7, h8⟩ :=
      collect_ok_decomp h
    have hunet : u.net = s4.net := by
      rw [(stepGpu_frames.1 _ h8).2.1, (stepNvmeTemp_frames.1 _ h7).2.1,
        (stepCpuTemp_frames.1 _ h6).2.1, (stepIoDev_frames.1 _ h5).2.1]
    have huio : u.io = s5.io := by
      rw [(stepGpu_frames.1 _ h8).2.2.1, (stepNvmeTemp_frames.1 _ h7).2.2.1,
        (stepCpuTemp_frames.1 _ h6).2.2.1]
    have hn := stepNetDev_ok_prev h4
    have hi := stepIoDev_ok_prev h5
    rw [hunet, huio]
    exact ⟨hn.1, hn.2, hi.1, hi.2⟩
  · intro e h
    rcases collect_error_decomp h with
      h1 | ⟨s1, h1, h2⟩ | ⟨s1, s2, h1, h2, h3⟩ | ⟨s1, s2, s3, h1, h2, h3, h4⟩ |
      ⟨s1, s2, s3, s4, h1, h2, h3, h4, h5⟩ |
      ⟨s1, s2, s3, s4, s5, h1, h2, h3, h4, h5, h6⟩ |
      ⟨s1, s2, s3, s4, s5, s6, h1, h2, h3, h4, h5, h6, h7⟩ |
      ⟨s1, s2, s3, s4, s5, s6, s7, h1, h2, h3, h4, h5, h6, h7, h8⟩
    · rw [stepLoadavg_frames.2 e h1]
      exact ⟨Or.inl ⟨rfl, rfl⟩, Or.inl ⟨rfl, rfl⟩⟩
    · rw [stepMeminfo_frames.2 e h2, (stepLoadavg_frames.1 s1 h1).2.1,
        (stepLoadavg_frames.1 s1 h1).2.2.1]
      exact ⟨Or.inl ⟨rfl, rfl⟩, Or.inl ⟨rfl, rfl⟩⟩
    · rw [stepUptime_frames.2 e h3, (stepMeminfo_frames.1 s2 h2).2.1,
        (stepMeminfo_frames.1 s2 h2).2.2.1, (stepLoadavg_frames.1 s1 h1).2.1,
        (stepLoadavg_frames.1 s1 h1).2.2.1]
      exact ⟨Or.inl ⟨rfl, rfl⟩, Or.inl ⟨rfl, rfl⟩⟩
    · have hfr := stepNetDev_frames.2 e h4
      have hnet3 : s3.net = s.net := by
        rw [(stepUptime_frames.1 _ h3).2.1, (stepMeminfo_frames.1 _ h2).2.1,
          (stepLoadavg_frames.1 _ h1).2.1]
      have hio3 : s3.io = s.io := by
        rw [(stepUptime_frames.1 _ h3).2.2.1, (stepMeminfo_frames.1 _ h2).2.2.1,
          (stepLoadavg_frames.1 _ h1).2.2.1]
      refine ⟨Or.inl ?_, Or.inl ?_⟩
      · rw [hfr.2.1, hfr.2.2.1, hnet3]
        exact ⟨rfl, rfl⟩
      · rw [hfr.2.2.2.1, hio3]
        exact ⟨rfl, rfl⟩
    · have hfr := stepIoDev_frames.2 e h5
      have hio4 : s4.io = s3.io := (stepNetDev_frames.1 _ h4).2.1
      have hio3 : s3.io = s.io := by
        rw [(stepUptime_frames.1 _ h3).2.2.1, (stepMeminfo_frames.1 _ h2).2.2.1,
          (stepLoadavg_frames.1 _ h1).2.2.1]
      have hn := stepNetDev_ok_prev h4
      refine ⟨Or.inr ?_, Or.inl ?_⟩
      · rw [hfr.2.1]
        exact ⟨hn.1, hn.2⟩
      · rw [hfr.2.2.1, hfr.2.2.2.1, hio4, hio3]
        exact ⟨rfl, rfl⟩
    · rw [stepCpuTemp_frames.2 e h6]
      have hnet5 : s5.net = s4.net := (stepIoDev_frames.1 _ h5).2.1
      have hn := stepNetDev_ok_prev h4
      have hi := stepIoDev_ok_prev h5
      refine ⟨Or.inr ?_, Or.inr ⟨hi.1, hi.2⟩⟩
      rw [hnet5]
      exact ⟨hn.1, hn.2⟩
    · rw [stepNvmeTemp_frames.2 e h7]
      have hnet6 : s6.net = s4.net := by
        rw [(stepCpuTemp_frames.1 _ h6).2.1, (stepIoDev_frames.1 _ h5).2.1]
      have hio6 : s6.io = s5.io := (stepCpuTemp_frames.1 _ h6).2.2.1
      have hn := stepNetDev_ok_prev h4
      have hi := stepIoDev_ok_prev h5
      refine ⟨Or.inr ?_, Or.inr ?_⟩
      · rw [hnet6]
        exact ⟨hn.1, hn.2⟩
      · rw [hio6]
        exact ⟨hi.1, hi.2⟩
    · rw [stepGpu_frames.2 e h8]
      have hnet7 : s7.net = s4.net := by
        rw [(stepNvmeTemp_frames.1 _ h7).2.1, (stepCpuTemp_frames.1 _ h6).2.1,
          (stepIoDev_frames.1 _ h5).2.1]
      have hio7 : s7.io = s5.io := by
        rw [(stepNvmeTemp_frames.1 _ h7).2.2.1, (stepCpuTemp_frames.1 _ h6).2.2.1]
      have hn := stepNetDev_ok_prev h4
      have hi := stepIoDev_ok_prev h5
      refine ⟨Or.inr ?_, Or.inr ?_⟩
      · rw [hnet7]
        exact ⟨hn.1, hn.2⟩
      · rw [hio7]
        exact ⟨hi.1, hi.2⟩
  · intro hbad e h
    rcases collect_error_decomp h with
      h1 | ⟨s1, h1, h2⟩ | ⟨s1, s2, h1, h2, h3⟩ | ⟨s1, s2, s3, h1, h2, h3, h4⟩ |
      ⟨s1, s2, s3, s4, h1, h2, h3, h4, h5⟩ |
      ⟨s1, s2, s3, s4, s5, h1, h2, h3, h4, h5, h6⟩ |
      ⟨s1, s2, s3, s4, s5, s6, h1, h2, h3, h4, h5, h6, h7⟩ |
      ⟨s1, s2, s3, s4, s5, s6, s7, h1, h2, h3, h4, h5, h6, h7, h8⟩
    · rw [stepLoadavg_frames.2 e h1]
      exact ⟨rfl, rfl, rfl, rfl⟩
    · rw [stepMeminfo_frames.2 e h2, (stepLoadavg_frames.1 s1 h1).2.1,
        (stepLoadavg_frames.1 s1 h1).2.2.1]
      exact ⟨rfl, rfl, rfl, rfl⟩
    · rw [stepUptime_frames.2 e h3, (stepMeminfo_frames.1 s2 h2).2.1,
        (stepMeminfo_frames.1 s2 h2).2.2.1, (stepLoadavg_frames.1 s1 h1).2.1,
        (stepLoadavg_frames.1 s1 h1).2.2.1]
      exact ⟨rfl, rfl, rfl, rfl⟩
    · have heq : e = s3 := by
        rw [stepNetDev_file_error hbad] at h4
        injection h4 with h4
        rw [h4]
      subst heq
      have hnet3 : e.net = s.net := by
        rw [(stepUptime_frames.1 _ h3).2.1, (stepMeminfo_frames.1 _ h2).2.1,
          (stepLoadavg_frames.1 _ h1).2.1]
      have hio3 : e.io = s.io := by
        rw [(stepUptime_frames.1 _ h3).2.2.1, (stepMeminfo_frames.1 _ h2).2.2.1,
          (stepLoadavg_frames.1 _ h1).2.2.1]
      rw [hnet3, hio3]
      exact ⟨rfl, rfl, rfl, rfl⟩
    · rw [stepNetDev_file_error hbad] at h4
      exact Except.noConfusion h4
    · rw [stepNetDev_file_error hbad] at h4
      exact Except.noConfusion h4
    · rw [stepNetDev_file_error hbad] at h4
      exact Except.noConfusion h4
    · rw [stepNetDev_file_error hbad] at h4
      exact Except.noConfusion h4

theorem baselines_only_overwritten_by_reads_witness :
    (clear_stats (runTo [wI1] wS0)).net.bytes_rec_prev = some 500 ∧
    (∃ u, collect_stats wI2 (runTo [wI1] wS0) = .ok u ∧
      u.net.bytes_rec_prev = some u.net.bytes_rec) ∧
    (∀ e, collect_stats wIbad (runTo [wI1] wS0) = .error e →
      e.net.bytes_rec_prev = (runTo [wI1] wS0).net.bytes_rec_prev) := by
  refine ⟨?_, ?_, ?_⟩
  · have h := (@baselines_only_overwritten_by_reads wI1 (runTo [wI1] wS0)).1.1
    rw [h]
    decide
  · obtain ⟨u, hu⟩ : ∃ u, collect_stats wI2 (runTo [wI1] wS0) = .ok u :=
      isOk_iff_ok.mp (by decide)
    exact ⟨u, hu, ((baselines_only_overwritten_by_reads).2.1 u hu).1⟩
  · intro e he
    rcases ((baselines_only_overwritten_by_reads).2.2.1 e he).1 with hc | hc
    · exact hc.1
    · have : e = runTo [wI1] wS0 := by
        have hf : collect_stats wIbad (runTo [wI1] wS0) = .error (runTo [wI1] wS0) :=
          collect_error_of_loadavg rfl
        rw [hf] at he
        injection he with he
        rw [he]
      rw [this]

theorem stepGpu_nvidia_fail {inp s} (hg : s.cfg.gpu_type = "nvidia".toList)
    (hfail : nvidiaRes inp = none) :
    stepGpu inp s = .ok { s with gpu := { usage := 0, memory_usage := 0, temp := 0 } } := by
  unfold stepGpu
  rw [if_pos hg, hfail]

/-- Claim C8: when the nvidia query utility invocation or its output
parse fails, the tick still succeeds, all three GPU fields are zeroed for
that tick, and every other field of the snapshot has exactly the value
any other outcome of the GPU query would have produced from the same
readings. -/
theorem gpu_failure_contained {inp : TickInput} {s : os_stats}
    (hg : s.cfg.gpu_type = "nvidia".toList)
    (hfail : nvidiaRes inp = none) :
    (∀ u, collect_stats inp s = .ok u →
      u.gpu.usage = 0 ∧ u.gpu.memory_usage = 0 ∧ u.gpu.temp = 0) ∧
    (∀ s7 : os_stats, s7.cfg.gpu_type = "nvidia".toList →
      (stepGpu inp s7).isOk = true) ∧
    (∀ alt u v, collect_stats inp s = .ok u →
      collect_stats { inp with nvidia_out := alt } s = .ok v →
      u.cfg = v.cfg ∧ u.net = v.net ∧ u.io = v.io ∧ u.avg_cpu_usage = v.avg_cpu_usage ∧
      u.memory_load = v.memory_load ∧ u.uptime = v.uptime ∧
      u.cpu_package_temp = v.cpu_package_temp ∧
      u.nvme_composite_temp = v.nvme_composite_temp) := by
  refine ⟨?_, ?_, ?_⟩
  · intro u h
    obtain ⟨s1, s2, s3, s4, s5, s6, s7, h1, h2, h3, h4, h5, h6, h7, h8⟩ :=
      collect_ok_decomp h
    have hcfg7 : s7.cfg = s.cfg := by
      rw [(stepNvmeTemp_frames.1 _ h7).1, (stepCpuTemp_frames.1 _ h6).1,
        (stepIoDev_frames.1 _ h5).1, (stepNetDev_frames.1 _ h4).1,
        (stepUptime_frames.1 _ h3).1, (stepMeminfo_frames.1 _ h2).1,
        (stepLoadavg_frames.1 _ h1).1]
    have hg7 : s7.cfg.gpu_type = "nvidia".toList := by rw [hcfg7, hg]
    rw [stepGpu_nvidia_fail hg7 hfail] at h8
    injection h8 with h8
    rw [← h8]
    exact ⟨rfl, rfl, rfl⟩
  · intro s7 hg7
    unfold stepGpu
    rw [if_pos hg7]
    cases hr : nvidiaRes inp with
    | none => rfl
    | some trip =>
      obtain ⟨a, b, c⟩ := trip
      rfl
  · intro alt u v h h2
    obtain ⟨s1, s2, s3, s4, s5, s6, s7, ha1, ha2, ha3, ha4, ha5, ha6, ha7, ha8⟩ :=
      collect_ok_decomp h
    obtain ⟨t1, t2, t3, t4, t5, t6, t7, hb1, hb2, hb3, hb4, hb5, hb6, hb7, hb8⟩ :=
      collect_ok_decomp h2
    have hb1e : stepLoadavg inp s = .ok t1 := hb1
    rw [ha1] at hb1e
    injection hb1e with hb1e
    subst hb1e
    have hb2e : stepMeminfo inp s1 = .ok t2 := hb2
    rw [ha2] at hb2e
    injection hb2e with hb2e
    subst hb2e
    have hb3e : stepUptime inp s2 = .ok t3 := hb3
    rw [ha3] at hb3e
    injection hb3e with hb3e
    subst hb3e
    have hb4e : stepNetDev inp s3 = .ok t4 := hb4
    rw [ha4] at hb4e
    injection hb4e with hb4e
    subst hb4e
    have hb5e : stepIoDev inp s4 = .ok t5 := hb5
    rw [ha5] at hb5e
    injection hb5e with hb5e
    subst hb5e
    have hb6e : stepCpuTemp inp s5 = .ok t6 := hb6
    rw [ha6] at hb6e
    injection hb6e with hb6e
    subst hb6e
    have hb7e : stepNvmeTemp inp s6 = .ok t7 := hb7
    rw [ha7] at hb7e
    injection hb7e with hb7e
    subst hb7e
    have hfa := stepGpu_frames.1 u ha8
    have hfb := (@stepGpu_frames { inp with nvidia_out := alt } s7).1 v hb8
    refine ⟨?_, ?_, ?_, ?_, ?_, ?_, ?_, ?_⟩
    · rw [hfa.1, hfb.1]
    · rw [hfa.2.1, hfb.2.1]
    · rw [hfa.2.2.1, hfb.2.2.1]
    · rw [hfa.2.2.2.1, hfb.2.2.2.1]
    · rw [hfa.2.2.2.2.1, hfb.2.2.2.2.1]
    · rw [hfa.2.2.2.2.2.1, hfb.2.2.2.2.2.1]
    · rw [hfa.2.2.2.2.2.2.1, hfb.2.2.2.2.2.2.1]
    · rw [hfa.2.2.2.2.2.2.2, hfb.2.2.2.2.2.2.2]

def wC8s : os_stats := { wS0 with cfg := { wCfg with gpu_type := "nvidia".toList } }

def wC8alt : Except Unit Str := .ok ("41 %, 1024 MiB, 45\n".toList)

theorem gpu_failure_contained_witness :
    (∃ u, collect_stats wI1 wC8s = .ok u ∧
      u.gpu.usage = 0 ∧ u.gpu.memory_usage = 0 ∧ u.gpu.temp = 0 ∧
      u.memory_load = 7000000) ∧
    (stepGpu wI1 wC8s).isOk = true := by
  have hc := @gpu_failure_contained wI1 wC8s rfl rfl
  obtain ⟨u, hu⟩ : ∃ u, collect_stats wI1 wC8s = .ok u := isOk_iff_ok.mp (by decide)
  obtain ⟨v, hv⟩ : ∃ v, collect_stats { wI1 with nvidia_out := wC8alt } wC8s = .ok v :=
    isOk_iff_ok.mp (by decide)
  refine ⟨⟨u, hu, (hc.1 u hu).1, (hc.1 u hu).2.1, (hc.1 u hu).2.2, ?_⟩, hc.2.1 wC8s rfl⟩
  rw [(hc.2.2 wC8alt u v hu hv).2.2.2.2.1]
  have : v.memory_load = 7000000 := by
    rw [show v = (collect_stats { wI1 with nvidia_out := wC8alt } wC8s).toOption.getD wS0
        from by rw [hv]; rfl]
    decide
  exact this

/-- Claim C6: with an existing card0 whose monitor name (nouveau) does
not match the expected vendor name, detect_gpu_path never terminates -
the loop body never increments the card index (unlike the other two
detectors), so it rescans card0 forever no matter how much fuel the loop
is given.  The claimed enumeration (advance to the next index, stop at
the first nonexistent one, return None on no match) does not happen. -/
theorem detect_gpu_path_never_terminates :
    ∀ fuel, detect_gpu_path (fun n => n == 0)
      (fun _ => .ok [("hwmon0".toList, true)])
      (fun _ _ => .ok ("nouveau".toList)) fuel 0 = none := by
  intro fuel
  induction fuel with
  | zero => rfl
  | succ fuel ih => exact ih

/-- Claim C5 counterexample: thermal_zone0 exists but reading its type
file raises; the error escapes detect_cpu_thermal_zone_path and
initSensors (the detection sequence of os_stats.__init__, which installs
no handler), so startup aborts instead of leaving the identifier absent. -/
theorem locator_error_aborts_startup_counterexample :
    detect_cpu_thermal_zone_path (fun n => n == 0) (fun _ => .error ())
      ("generic".toList) 5 0 = some (.error ()) ∧
    initSensors ("generic".toList) ("none".toList) (fun n => n == 0)
      (fun _ => .error ()) (fun _ => false) (fun _ => .ok []) (fun _ _ => false)
      (fun _ => false) (fun _ => .ok []) (fun _ _ => .error ()) 5 =
      some (.error ()) := by
  decide

theorem detect_cpu_read_error {zoneEx : Nat → Bool} {zoneTy : Nat → Except Unit Str}
    {host : Str} {fuel n} (hex : zoneEx n = true) (hty : zoneTy n = .error ()) :
    detect_cpu_thermal_zone_path zoneEx zoneTy host (fuel + 1) n = some (.error ()) := by
  unfold detect_cpu_thermal_zone_path
  rw [if_pos hex, hty]

/-- Claim C5 amended: only the existence probes contain anomalies (a
zone reported nonexistent ends the scan with the identifier left absent,
non-fatally); an error raised while reading a type file inside an
existing zone, or while scanning an existing NVMe or DRM entry,
propagates out of the detect call and hence out of os_stats.__init__,
aborting startup; when every reached read succeeds the CPU detector never
raises. -/
theorem locator_error_propagation
    (zoneEx : Nat → Bool) (zoneTy : Nat → Except Unit Str) (host : Str) :
    (∀ fuel n, zoneEx n = false →
      detect_cpu_thermal_zone_path zoneEx zoneTy host (fuel + 1) n = some (.ok none)) ∧
    (∀ fuel n, zoneEx n = true → zoneTy n = .error () →
      detect_cpu_thermal_zone_path zoneEx zoneTy host (fuel + 1) n = some (.error ())) ∧
    (∀ nvmeEx scanHw tempEx fuel n, nvmeEx n = true → scanHw n = .error () →
      detect_nvme_path nvmeEx scanHw tempEx (fuel + 1) n = some (.error ())) ∧
    (∀ cardEx scanHw readNm fuel n, cardEx n = true → scanHw n = .error () →
      detect_gpu_path cardEx scanHw readNm (fuel + 1) n = some (.error ())) ∧
    (∀ gpuT nvmeEx nvmeScanHw tempEx cardEx gpuScanHw readNm fuel,
      zoneEx 0 = true → zoneTy 0 = .error () →
      initSensors host gpuT zoneEx zoneTy nvmeEx nvmeScanHw tempEx cardEx gpuScanHw
        readNm (fuel + 1) = some (.error ())) ∧
    ((∀ m, (zoneTy m).isOk = true) → ∀ fuel n e,
      detect_cpu_thermal_zone_path zoneEx zoneTy host fuel n ≠ some (.error e)) := by
  refine ⟨?_, ?_, ?_, ?_, ?_, ?_⟩
  · intro fuel n hex
    unfold detect_cpu_thermal_zone_path
    rw [if_neg (by rw [hex]; exact Bool.false_ne_true)]
  · intro fuel n hex hty
    exact detect_cpu_read_error hex hty
  · intro nvmeEx scanHw tempEx fuel n hex hscan
    unfold detect_nvme_path
    rw [if_pos hex, hscan]
  · intro cardEx scanHw readNm fuel n hex hscan
    unfold detect_gpu_path
    rw [if_pos hex, hscan]
  · intro gpuT nvmeEx nvmeScanHw tempEx cardEx gpuScanHw readNm fuel hex hty
    unfold initSensors
    rw [detect_cpu_read_error hex hty]
  · intro hok fuel
    induction fuel with
    | zero => intro n e h; exact Option.noConfusion h
    | succ fuel ih =>
      intro n e h
      unfold detect_cpu_thermal_zone_path at h
      by_cases hex : zoneEx n = true
      · rw [if_pos hex] at h
        obtain ⟨t, hty⟩ : ∃ t, zoneTy n = .ok t := isOk_iff_ok.mp (hok n)
        rw [hty] at h
        dsimp only at h
        by_cases hmatch : pyStrip t = expectedZoneType host
        · rw [if_pos hmatch] at h
          injection h with h
          exact Except.noConfusion h
        · rw [if_neg hmatch] at h
          exact ih (n + 1) e h
      · rw [if_neg hex] at h
        injection h with h
        exact Except.noConfusion h

theorem locator_error_propagation_witness :
    detect_cpu_thermal_zone_path (fun _ => false) (fun _ => .ok []) ("generic".toList)
      3 0 = some (.ok none) ∧
    detect_nvme_path (fun n => n == 0) (fun _ => .error ()) (fun _ _ => false) 3 0 =
      some (.error ()) ∧
    detect_gpu_path (fun n => n == 0) (fun _ => .error ()) (fun _ _ => .error ()) 3 0 =
      some (.error ()) ∧
    (∀ fuel n e, detect_cpu_thermal_zone_path (fun _ => true)
      (fun m => .ok (if m == 2 then "x86_pkg_temp".toList else "acpitz".toList))
      ("generic".toList) fuel n ≠ some (.error e)) := by
  have h := locator_error_propagation (fun _ => false) (fun _ => .ok []) ("generic".toList)
  have h2 := locator_error_propagation (fun n => n == 0)
    (fun m => .ok (if m == 2 then "x86_pkg_temp".toList else "acpitz".toList))
    ("generic".toList)
  have h3 := locator_error_propagation (fun _ => true)
    (fun m => .ok (if m == 2 then "x86_pkg_temp".toList else "acpitz".toList))
    ("generic".toList)
  refine ⟨h.1 2 0 rfl, ?_, ?_, h3.2.2.2.2.2 (fun m => rfl)⟩
  · exact (locator_error_propagation (fun _ => false) (fun _ => .ok [])
      ("generic".toList)).2.2.1 (fun n => n == 0) (fun _ => .error ())
      (fun _ _ => false) 2 0 rfl rfl
  · exact (locator_error_propagation (fun _ => false) (fun _ => .ok [])
      ("generic".toList)).2.2.2.1 (fun n => n == 0) (fun _ => .error ())
      (fun _ _ => .error ()) 2 0 rfl rfl

end Flameglow
